import Mathlib

/-!
# AtlasCare prescription event ledger — verification development

Shallow embedding of the backend's prescription event subsystem
(`src/backend/index.js`): the dispense handler with its per-channel lock and
dispense counting, the verify handler with its nonce guard and signature
policy, construction of the signed hash-chained events (issued / paid /
verified / dispensed), and the payload compressor contract.

Conventions:
* JS objects that reach `JSON.stringify` are modelled by `JVal`, an
  insertion-ordered JSON value; `serializeJ` mirrors `JSON.stringify`.
* SHA-256 is implemented concretely (`sha256hexS`); handlers are additionally
  parameterized over the hash and signing functions so that theorems whose
  content is independent of the digest values quantify over them.
* JS truthiness (`||`, optional chaining with `|| 0`, `?? `) is modelled by
  explicit helpers (`jsOrStr`, `jsOrNat`, …).
* Timestamps compared with `Date` arithmetic are modelled as epoch
  milliseconds (`Nat`); timestamps merely stored in events are strings.
-/

/-! ## SHA-256 (bytes as `Nat`, words mod 2^32) -/

def u32 (n : Nat) : Nat := n % 4294967296

def rotr32 (n x : Nat) : Nat := u32 ((x >>> n) ||| (x <<< (32 - n)))

def bsig0 (x : Nat) : Nat := rotr32 2 x ^^^ rotr32 13 x ^^^ rotr32 22 x

def bsig1 (x : Nat) : Nat := rotr32 6 x ^^^ rotr32 11 x ^^^ rotr32 25 x

def ssig0 (x : Nat) : Nat := rotr32 7 x ^^^ rotr32 18 x ^^^ (x >>> 3)

def ssig1 (x : Nat) : Nat := rotr32 17 x ^^^ rotr32 19 x ^^^ (x >>> 10)

def chf (x y z : Nat) : Nat := (x &&& y) ^^^ ((x ^^^ 4294967295) &&& z)

def majf (x y z : Nat) : Nat := (x &&& y) ^^^ (x &&& z) ^^^ (y &&& z)

/-- The 64 SHA-256 round constants K0..K63, packed big-endian into one
2048-bit literal (FIPS 180-4 §4.2.2). -/
def shaKpacked : Nat := 0x428a2f9871374491b5c0fbcfe9b5dba53956c25b59f111f1923f82a4ab1c5ed5d807aa9812835b01243185be550c7dc372be5d7480deb1fe9bdc06a7c19bf174e49b69c1efbe47860fc19dc6240ca1cc2de92c6f4a7484aa5cb0a9dc76f988da983e5152a831c66db00327c8bf597fc7c6e00bf3d5a7914706ca63511429296727b70a852e1b21384d2c6dfc53380d13650a7354766a0abb81c2c92e92722c85a2bfe8a1a81a664bc24b8b70c76c51a3d192e819d6990624f40e3585106aa07019a4c1161e376c082748774c34b0bcb5391c0cb34ed8aa4a5b9cca4f682e6ff3748f82ee78a5636f84c878148cc7020890befffaa4506cebbef9a3f7c67178f2

def shaK : List Nat :=
  (List.range 64).map (fun i => (shaKpacked >>> (32 * (63 - i))) &&& 4294967295)

/-- The initial hash values H0..H7, packed big-endian (FIPS 180-4 §5.3.3). -/
def shaH0packed : Nat := 0x6a09e667bb67ae853c6ef372a54ff53a510e527f9b05688c1f83d9ab5be0cd19

def shaH0 : List Nat :=
  (List.range 8).map (fun i => (shaH0packed >>> (32 * (7 - i))) &&& 4294967295)

/-- SHA-256 padding: append 0x80, zeros, then the 64-bit big-endian bit length. -/
def padBytes (msg : List Nat) : List Nat :=
  let L := msg.length
  let z := (119 - (L % 64)) % 64
  let bitLen := 8 * L
  msg ++ [128] ++ List.replicate z 0 ++
    [(bitLen >>> 56) % 256, (bitLen >>> 48) % 256, (bitLen >>> 40) % 256,
     (bitLen >>> 32) % 256, (bitLen >>> 24) % 256, (bitLen >>> 16) % 256,
     (bitLen >>> 8) % 256, bitLen % 256]

/-- Group bytes into big-endian 32-bit words. -/
def toWords : List Nat → List Nat
  | b0 :: b1 :: b2 :: b3 :: rest =>
      (b0 * 16777216 + b1 * 65536 + b2 * 256 + b3) :: toWords rest
  | _ => []

/-- Split a word list into 16-word blocks. -/
def toBlocks (ws : List Nat) : List (List Nat) :=
  (List.range ((ws.length + 15) / 16)).map (fun i => ((ws.drop (16 * i)).take 16))

/-- Extend a 16-word block to the 64-word message schedule. -/
def extendW (w16 : List Nat) : List Nat :=
  (List.range 48).foldl
    (fun w _ =>
      let n := w.length
      w ++ [u32 (ssig1 (w.get! (n - 2)) + w.get! (n - 7) +
                 ssig0 (w.get! (n - 15)) + w.get! (n - 16))])
    w16

/-- One SHA-256 compression step on the working variables. -/
def shaRound (w : List Nat) (st : List Nat) (t : Nat) : List Nat :=
  match st with
  | [a, b, c, d, e, f, g, hh] =>
      let t1 := u32 (hh + bsig1 e + chf e f g + shaK.get! t + w.get! t)
      let t2 := u32 (bsig0 a + majf a b c)
      [u32 (t1 + t2), a, b, c, u32 (d + t1), e, f, g]
  | _ => st

/-- Compress one 16-word block into the running hash state. -/
def compressBlock (h : List Nat) (w16 : List Nat) : List Nat :=
  let w := extendW w16
  let st := (List.range 64).foldl (shaRound w) h
  match st, h with
  | [a, b, c, d, e, f, g, hh], [h0, h1, h2, h3, h4, h5, h6, h7] =>
      [u32 (h0 + a), u32 (h1 + b), u32 (h2 + c), u32 (h3 + d),
       u32 (h4 + e), u32 (h5 + f), u32 (h6 + g), u32 (h7 + hh)]
  | _, _ => h

def hexDigit (n : Nat) : Char :=
  if n < 10 then Char.ofNat (48 + n) else Char.ofNat (87 + n)

/-- A 32-bit word as 8 lowercase hex characters. -/
def word8hex (w : Nat) : String :=
  String.mk ((List.range 8).map (fun i => hexDigit ((w >>> (28 - 4 * i)) &&& 15)))

/-- SHA-256 of a byte list, as the usual 64-char lowercase hex string. -/
def sha256hexBytes (msg : List Nat) : String :=
  String.join (((toBlocks (toWords (padBytes msg))).foldl compressBlock shaH0).map word8hex)

/-- Bytes of a string; the strings hashed in this development are ASCII, for
which this coincides with the UTF-8 bytes `Buffer.from` produces. -/
def strBytes (s : String) : List Nat := s.data.map Char.toNat

/-- The digest `crypto.createHash('sha256').update(s).digest('hex')` for ASCII `s`. -/
def sha256hexS (s : String) : String := sha256hexBytes (strBytes s)

/-! ## JS truthiness helpers

`a || b` on strings/numbers and `a ?? b` (nullish coalescing) as used by the
handlers; `undefined` is `Option.none`. -/

/-- Truthiness of a possibly-undefined JS string: defined and nonempty. -/
def truthyS : Option String → Bool
  | some s => s != ""
  | none => false

/-- Truthiness of a possibly-undefined JS number: defined and nonzero. -/
def truthyN : Option Nat → Bool
  | some n => n != 0
  | none => false

/-- JS `a || b` for strings (empty string and undefined are falsy). -/
def jsOrStr (a b : Option String) : Option String :=
  if truthyS a then a else b

/-- JS `a || d` for a possibly-undefined number and a number default
(zero and undefined are falsy). -/
def jsOrNat (a : Option Nat) (d : Nat) : Nat :=
  match a with
  | some n => if n = 0 then d else n
  | none => d

/-- JS `a || b` for possibly-undefined numbers (zero and undefined falsy). -/
def jsOrNatO (a b : Option Nat) : Option Nat :=
  if truthyN a then a else b

/-- JS `a ?? b` — nullish coalescing: first defined operand. -/
def jsNullish {α : Type} (a b : Option α) : Option α :=
  match a with
  | some x => some x
  | none => b

/-! ## JSON values (`JVal`) and `JSON.stringify`

JS objects are insertion-ordered field lists; `serializeJ` mirrors
`JSON.stringify` (no whitespace, insertion order). The strings occurring in
events contain no quote, backslash, or control characters, so the escaper
only needs to handle quote and backslash for faithfulness. -/

inductive JVal where
  | null
  | bool (b : Bool)
  | num (n : Int)
  | str (s : String)
  | arr (xs : List JVal)
  | obj (fields : List (String × JVal))

def escapeChar (c : Char) : String :=
  if c = '"' || c = '\\' then String.mk ['\\', c] else String.mk [c]

/-- A JSON string literal: quoted, with quote/backslash escaping. -/
def jstr (s : String) : String :=
  "\"" ++ String.join (s.data.map escapeChar) ++ "\""

/-- A JSON integer literal (JS numbers in events are integers). -/
def jnum (n : Int) : String :=
  if n < 0 then "-" ++ Nat.repr n.natAbs else Nat.repr n.natAbs

mutual

/-- The `JSON.stringify` serialization on the `JVal` model. -/
def serializeJ : JVal → String
  | .null => "null"
  | .bool b => if b then "true" else "false"
  | .num n => jnum n
  | .str s => jstr s
  | .arr xs => "[" ++ serializeL xs ++ "]"
  | .obj fs => "\x7b" ++ serializeF fs ++ "\x7d"

def serializeL : List JVal → String
  | [] => ""
  | [x] => serializeJ x
  | x :: y :: xs => serializeJ x ++ "," ++ serializeL (y :: xs)

def serializeF : List (String × JVal) → String
  | [] => ""
  | [(k, v)] => jstr k ++ ":" ++ serializeJ v
  | (k, v) :: f :: fs => jstr k ++ ":" ++ serializeJ v ++ "," ++ serializeF (f :: fs)

end

/-! ## Association-list operations (JS `Map` / object field access) -/

/-- JS `map.get k` — first binding wins (keys are unique in the stores). -/
def alookup {α : Type} (fs : List (String × α)) (k : String) : Option α :=
  (fs.find? (fun p => p.1 == k)).map Prod.snd

/-- JS `map.set k v` — replace in place if present, else append (`Map.set`
insertion-order semantics). -/
def aset {α : Type} (fs : List (String × α)) (k : String) (v : α) :
    List (String × α) :=
  match fs with
  | [] => [(k, v)]
  | (k', v') :: rest =>
      if k' == k then (k', v) :: rest else (k', v') :: aset rest k v

/-- JS `map.delete k`. -/
def adel {α : Type} (fs : List (String × α)) (k : String) : List (String × α) :=
  fs.filter (fun p => p.1 != k)

/-- Object field lookup (`obj[k]`, `obj?.k`). -/
def objGet (v : JVal) (k : String) : Option JVal :=
  match v with
  | .obj fs => alookup fs k
  | _ => none

/-- Drop the named fields of an object, keeping the order of the rest. -/
def objRemove (v : JVal) (bad : List String) : JVal :=
  match v with
  | .obj fs => .obj (fs.filter (fun p => !(bad.contains p.1)))
  | _ => v

/-- An optional object field: present iff the value is defined
(`JSON.stringify` omits `undefined`-valued properties, and the handlers write
`x || undefined` for optional fields). -/
def optF (k : String) (o : Option JVal) : List (String × JVal) :=
  match o with
  | some v => [(k, v)]
  | none => []

/-- An optional string-valued field. -/
def optS (k : String) (o : Option String) : List (String × JVal) :=
  optF k (o.map JVal.str)

theorem alookup_nil {α : Type} (k : String) : alookup ([] : List (String × α)) k = none := rfl

theorem alookup_cons {α : Type} (k k' : String) (v : α) (fs : List (String × α)) :
    alookup ((k', v) :: fs) k = if k' == k then some v else alookup fs k := by
  by_cases h : k' == k <;> simp [alookup, List.find?, h]

theorem alookup_append {α : Type} (k : String) (fs gs : List (String × α)) :
    alookup (fs ++ gs) k =
      match alookup fs k with
      | some v => some v
      | none => alookup gs k := by
  induction fs with
  | nil => simp [alookup]
  | cons p rest ih =>
      by_cases h : p.1 == k
      · simp [alookup, List.find?, h]
      · simp only [List.cons_append, alookup, List.find?, h] at *
        exact ih

theorem alookup_optF_ne (k k' : String) (o : Option JVal) (h : (k' == k) = false) :
    alookup (optF k' o) k = none := by
  cases o <;> simp [optF, alookup, List.find?, h]

theorem alookup_optS_ne (k k' : String) (o : Option String) (h : (k' == k) = false) :
    alookup (optS k' o) k = none := by
  cases o <;> simp [optS, optF, alookup, List.find?, h]

/-! ## Crypto collaborators

`utils/signature.js` (SignatureCodec/KeyManager) is not under `src/`; the
hash itself is `crypto.createHash('sha256')`. Handlers are parameterized over
both so that theorems whose content does not depend on digest values hold for
every hash/sign function; `sha256hexS` is the concrete hash. -/

structure CryptoM where
  /-- The digest `crypto.createHash('sha256').update(s).digest('hex')`. -/
  sha : String → String
  /-- The `signPayload(payload, actorId)` signature hex over the payload.
  Modelled from the spec: sign is over the canonical serialization excluding
  the signature field (§4.2); the ECDSA computation itself is external. -/
  sign : JVal → String → String

/-- The concrete crypto instantiation (SHA-256; a deterministic stand-in
signature over the canonical serialization, per §4.2's contract). -/
def cryptoR : CryptoM :=
  { sha := sha256hexS
    sign := fun p actorId => "sig-" ++ actorId ++ "-" ++ sha256hexS (serializeJ p) }

/-- Modelled from the spec: `ensureKeyPair(actorId)` (§4.2, `utils/signature.js`
not under src/) issues a key pair deterministically and idempotently per actor
id; the public key is therefore a deterministic function of the actor id. -/
def publicKeyOf (actorId : String) : String := "04pub" ++ actorId

/-- The key fingerprint `keyId = 'fp:' + hex(sha256(publicKey))[0:16]` (§4.2, the literal
computation in the handlers). -/
def keyIdOf (c : CryptoM) (actorId : String) : String :=
  "fp:" ++ ((c.sha (publicKeyOf actorId)).take 16)

/-- The value `'sha256:' + sha256(String(actorId) + (process.env.CNDP_SALT || default))`
— the actor-id hash attached to events. -/
def actorIdHashOf (c : CryptoM) (salt actorId : String) : String :=
  "sha256:" ++ c.sha (actorId ++ salt)

/-! ## The event store (`services/store.js` maps; spec §2, §3)

The store module is not under `src/`; per the spec, EventStore is in-process
maps: latest hash/type per channel, the payload cache (`inMemoryStore`), the
sensitive side table, and the consumed-nonce set. The prescription indexes
(`prescriptionIndex`, `topicIndex`, `prescriptionToTopic`) are plain `Map`s
declared in `index.js` itself. -/

/-- The structured payload object as the verify/dispense handlers read it:
every field is optional (`undefined` = `none`). Dates that are compared with
`Date` arithmetic (`u`, `validUntil`) are modelled as epoch milliseconds. -/
structure Payload where
  e : Option String := none
  eventType : Option String := none
  topicID : Option String := none
  v : Option String := none
  version : Option String := none
  t : Option String := none
  h : Option String := none
  hashedPatientId : Option String := none
  d : Option String := none
  drugId : Option String := none
  drugIds : Option (List String) := none
  q : Option String := none
  quantity : Option String := none
  i : Option String := none
  instructions : Option String := none
  instructionsList : Option (List String) := none
  u : Option Nat := none
  validUntil : Option Nat := none
  n : Option String := none
  nonce : Option String := none
  g : Option String := none
  geoTag : Option String := none
  p : Option String := none
  doctorIdHash : Option String := none
  dc : Option Nat := none
  dispenseCount : Option Nat := none
  md : Option Nat := none
  maxDispenses : Option Nat := none
  s : Option String := none
  signature : Option String := none
  prescriptionId : Option String := none
  doctorNationalId : Option String := none
  timestamp : Option String := none
  lastDispenseDate : Option String := none
deriving Repr, DecidableEq

/-- An `inMemoryStore` entry: `{ prescription, payload }` plus the `status`
written by `setTopicStatus` (read as `entry?.status`). -/
structure Entry where
  payload : Payload
  status : Option String := none
deriving Repr, DecidableEq

/-- A `prescriptionIndex` record (the fields the embedded handlers read). -/
structure PrescRecord where
  id : Option String := none
  prescriptionId : Option String := none
  doctorNationalId : Option String := none
  date : Option String := none
  dispenseCount : Option Nat := none
  maxDispenses : Option Nat := none
  lastDispenseDate : Option String := none
deriving Repr, DecidableEq

/-- The shared mutable maps the embedded handlers touch. `queued` records
`queueMessage(topicID, { eventType, … })` calls and `hcsLog` the
`logHCSEvent` entries, as `(topicID, eventType)` pairs. -/
structure Store where
  inMemory : List (String × Entry) := []
  prescriptionIndex : List (String × PrescRecord) := []
  lastEventHashPerTopic : List (String × String) := []
  lastEventTypePerTopic : List (String × String) := []
  usedNonces : List String := []
  locks : List (String × String) := []
  sensitive : List (String × JVal) := []
  queued : List (Option String × String) := []
  hcsLog : List (Option String × String) := []

/-- Modelled from the spec: `setTopicStatus` (`services/store.js`, not under
src/; §6 `setStatus`) overwrites the cached status of a tracked channel. -/
def setTopicStatus (st : Store) (topicID status : String) : Store :=
  match alookup st.inMemory topicID with
  | some e => { st with inMemory := aset st.inMemory topicID { e with status := some status } }
  | none => st

/-! ## DispenseLock (spec §4.4)

Modelled from the spec: `acquireDispenseLock` / `releaseDispenseLock`
(`services/statusReconciliation.js`) are not under `src/`. Per §4.4 the lock
is a per-channel mutex with an owner id: `acquire` returns false immediately
(no blocking, no state change) when held by a different owner, `release` is
idempotent. The auto-expiry timeout is not modelled (no claim depends on
it). -/

def acquireDispenseLock (locks : List (String × String)) (channelId ownerId : String) :
    Bool × List (String × String) :=
  match alookup locks channelId with
  | some owner => if owner == ownerId then (true, locks) else (false, locks)
  | none => (true, aset locks channelId ownerId)

def releaseDispenseLock (locks : List (String × String)) (channelId : String) :
    List (String × String) :=
  adel locks channelId

/-! ## Request contexts and oracles -/

/-- Ambient values a handler invocation draws fresh: `new Date()` (as ISO
string and epoch ms), `crypto.randomBytes(8).toString('hex')`, and the
`CNDP_SALT` environment value. -/
structure Ctx where
  nowIso : String := "2026-01-01T00:00:00.000Z"
  nowMs : Nat := 1767225600000
  nonceHex : String := "aabbccdd00112233"
  salt : String := "atlascare-default-salt"

/-- Failure oracle for the dispense handler's fallible effects: `signThrows`
makes the signing step throw (landing in the outer `catch`), `submitFails`
makes the HCS submission reject (swallowed by its own inner `try`). -/
structure DOracle where
  signThrows : Bool := false
  submitFails : Bool := false

/-! ## POST /api/dispense (`src/backend/index.js` lines 1487–1630) -/

/-- The validated dispense request body. `items` (a validated array of
`{drugId, quantity, unit}` objects) and `totals` are carried as `JVal`. -/
structure DReq where
  topicID : String
  pharmacistNationalId : String
  items : Option JVal := none
  totals : Option JVal := none
  paymentMethod : Option String := none
  prevEventHash : Option String := none

/-- An HTTP JSON response of the dispense endpoint. -/
structure DResp where
  status : Nat
  success : Bool
  message : Option String := none
  error : Option String := none
deriving Repr, DecidableEq

/-- The handler's outcome: the response plus the signed `dispensed` payload it
built (before compression), when it built one. -/
structure DOut where
  resp : DResp
  event : Option JVal := none

/-- The `base` object of the dispensed event (index.js lines 1534–1548):
optional fields written `x || undefined` are omitted when falsy. -/
def dispensedBase (c : CryptoM) (ctx : Ctx) (req : DReq) (chainPrev : Option String)
    (newDispenseCount maxDispenses : Nat) : List (String × JVal) :=
  [("version", .str "1"),
   ("alg", .str "secp256k1+SHA-256"),
   ("eventType", .str "dispensed"),
   ("topicID", .str req.topicID),
   ("timestamp", .str ctx.nowIso),
   ("signerRole", .str "pharmacist"),
   ("actorIdHash", .str (actorIdHashOf c ctx.salt req.pharmacistNationalId))]
  ++ optF "items" req.items
  ++ optF "totals" req.totals
  ++ optS "paymentMethod" (jsOrStr req.paymentMethod none)
  ++ optS "prevEventHash" chainPrev
  ++ [("dispenseCount", .num newDispenseCount),
      ("maxDispenses", .num maxDispenses)]

/-- Lines 1550–1557: attach keyId and nonce, hash, then sign. -/
def signedEventOf (c : CryptoM) (ctx : Ctx) (actorId : String)
    (base : List (String × JVal)) : JVal :=
  let toHash := base ++ [("keyId", .str (keyIdOf c actorId)), ("nonce", .str ctx.nonceHex)]
  let contentHash := "sha256:" ++ c.sha (serializeJ (.obj toHash))
  let signed := toHash ++ [("contentHash", .str contentHash)]
  let signature := c.sign (.obj signed) actorId
  .obj (signed ++ [("signature", .str ("hex:" ++ signature))])

/-- The fully built `dispensed` payload of lines 1534–1557. -/
def dispensedEvent (c : CryptoM) (ctx : Ctx) (req : DReq) (chainPrev : Option String)
    (newDispenseCount maxDispenses : Nat) : JVal :=
  signedEventOf c ctx req.pharmacistNationalId
    (dispensedBase c ctx req chainPrev newDispenseCount maxDispenses)

/-- Lines 1560-1565: `putSensitiveData(topicID, { ...getSensitiveData(topicID), dispensedItems,
dispensedTotals, paymentMethod })` (lines 1560–1565); spread overwrite keeps
the original key position, new keys append. -/
def jsSpreadSet (fs : List (String × JVal)) (k : String) (v : JVal) :
    List (String × JVal) :=
  match fs with
  | [] => [(k, v)]
  | (k', v') :: rest =>
      if k' == k then (k', v) :: rest else (k', v') :: jsSpreadSet rest k v

def optJ (o : Option JVal) : JVal := match o with | some v => v | none => .null

def dispenseSensitiveUpdate (st : Store) (req : DReq) : Store :=
  let old := match alookup st.sensitive req.topicID with
    | some (.obj fs) => fs
    | _ => []
  let merged := jsSpreadSet (jsSpreadSet (jsSpreadSet old
      "dispensedItems" (optJ req.items))
      "dispensedTotals" (optJ req.totals))
      "paymentMethod" (match req.paymentMethod with | some s => .str s | none => .null)
  { st with sensitive := aset st.sensitive req.topicID (.obj merged) }

/-- The POST /api/dispense handler (lines 1499–1629). The returned store is
the shared state after the request completes. -/
def dispenseHandler (c : CryptoM) (orc : DOracle) (ctx : Ctx) (req : DReq)
    (st : Store) : DOut × Store :=
  -- lines 1504–1510: lock acquisition, hard 409 on conflict
  match acquireDispenseLock st.locks req.topicID req.pharmacistNationalId with
  | (false, _) =>
      ({ resp := { status := 409, success := false,
                   message := some "Another dispense operation is in progress for this prescription",
                   error := some "CONCURRENT_DISPENSE_ATTEMPT" } }, st)
  | (true, locks1) =>
      let st1 : Store := { st with locks := locks1 }
      -- lines 1516–1519
      let prescriptionData := alookup st1.inMemory req.topicID
      let currentDispenseCount :=
        jsOrNat (prescriptionData.bind (fun e => e.payload.dispenseCount)) 0
      let maxDispenses :=
        jsOrNat (prescriptionData.bind (fun e => e.payload.maxDispenses)) 1
      -- lines 1521–1528: fully-dispensed rejection (releases the lock)
      if currentDispenseCount ≥ maxDispenses then
        ({ resp := { status := 400, success := false,
                     message := some ("Prescription fully dispensed (" ++
                       Nat.repr currentDispenseCount ++ "/" ++ Nat.repr maxDispenses ++ ")") } },
         { st1 with locks := releaseDispenseLock st1.locks req.topicID })
      else
        -- line 1531
        let newDispenseCount := currentDispenseCount + 1
        -- line 1533: a truthy client-supplied prevEventHash takes precedence
        let chainPrev :=
          jsOrStr req.prevEventHash (jsOrStr (alookup st1.lastEventHashPerTopic req.topicID) none)
        -- the signing step is the modelled fallible synchronous operation;
        -- a throw lands in the outer catch (lines 1624–1628)
        if orc.signThrows then
          ({ resp := { status := 500, success := false } },
           { st1 with locks := releaseDispenseLock st1.locks req.topicID })
        else
          let payload := dispensedEvent c ctx req chainPrev newDispenseCount maxDispenses
          -- lines 1560–1565
          let st2 := dispenseSensitiveUpdate st1 req
          -- line 1571: queueMessage(topicID, { eventType: 'dispensed', … })
          let st3 : Store := { st2 with queued := st2.queued ++ [(some req.topicID, "dispensed")] }
          -- lines 1572–1578: HCS submission; failure swallowed by inner catch
          -- (orc.submitFails has no effect on the store)
          -- lines 1579–1619: inner try (map updates; total in the model)
          let newHash := "sha256:" ++ c.sha (serializeJ payload)
          let st4 : Store := { st3 with
            lastEventHashPerTopic := aset st3.lastEventHashPerTopic req.topicID newHash,
            lastEventTypePerTopic := aset st3.lastEventTypePerTopic req.topicID "dispensed" }
          let st5 : Store :=
            match prescriptionData with
            | some e =>
                let e' : Entry := { e with payload := { e.payload with
                    dispenseCount := some newDispenseCount,
                    lastDispenseDate := some ctx.nowIso } }
                { st4 with inMemory := aset st4.inMemory req.topicID e' }
            | none => st4
          let st6 : Store :=
            match alookup st5.prescriptionIndex req.topicID with
            | some r =>
                let r' : PrescRecord := { r with dispenseCount := some newDispenseCount,
                                                 lastDispenseDate := some ctx.nowIso }
                { st5 with prescriptionIndex := aset st5.prescriptionIndex req.topicID r' }
            | none => st5
          let st7 := setTopicStatus st6 req.topicID "dispensed"
          let st8 : Store := { st7 with hcsLog := st7.hcsLog ++ [(some req.topicID, "dispensed")] }
          -- lines 1621–1623: release lock, respond success
          ({ resp := { status := 200, success := true }, event := some payload },
           { st8 with locks := releaseDispenseLock st8.locks req.topicID })

/-! ## The `paid` event (POST /api/payments, lines 449–508) -/

def truthyI : Option Int → Bool
  | some n => n != 0
  | none => false

/-- The `base` object of the paid event (lines 454–465): `amountMAD`/`method` are written
`x || undefined`, `prevEventHash` is the store head or omitted. -/
def paidBase (c : CryptoM) (ctx : Ctx) (topicID pharmacistNationalId : String)
    (amountMAD : Option Int) (method : Option String) (st : Store) :
    List (String × JVal) :=
  let prevEventHash := jsOrStr (alookup st.lastEventHashPerTopic topicID) none
  [("version", .str "1"),
   ("alg", .str "secp256k1+SHA-256"),
   ("eventType", .str "paid"),
   ("topicID", .str topicID),
   ("timestamp", .str ctx.nowIso),
   ("signerRole", .str "pharmacist"),
   ("actorIdHash", .str (actorIdHashOf c ctx.salt pharmacistNationalId))]
  ++ optF "amountMAD" (if truthyI amountMAD then amountMAD.map JVal.num else none)
  ++ optS "method" (jsOrStr method none)
  ++ optS "prevEventHash" prevEventHash

/-- The fully built signed `paid` payload (lines 454–473; same keyId / nonce /
contentHash / signature steps as the dispensed event). -/
def paidEvent (c : CryptoM) (ctx : Ctx) (topicID pharmacistNationalId : String)
    (amountMAD : Option Int) (method : Option String) (st : Store) : JVal :=
  signedEventOf c ctx pharmacistNationalId
    (paidBase c ctx topicID pharmacistNationalId amountMAD method st)

/-! ## The `issued` event (POST /api/issue-prescription, lines 739–765) -/

/-- Inputs of the issued-event construction that the surrounding handler
computes before the block embedded here. -/
structure IssueArgs where
  topicID : String
  validUntil : String := "2026-03-02T00:00:00.000Z"
  /-- the joined template string when a geo object was sent, else the
  `geoTag: null` branch -/
  geo : Option String := none
  hashedPatientId : String := "hp"
  nftSerial : String := "1"
  drugIds : List String := ["D1"]
  instructionsList : List String := [""]
  maxDispenses : Option Nat := none

/-- The `fullPayload` object (lines 739–755). -/
def issuedFullPayload (ctx : Ctx) (a : IssueArgs) : List (String × JVal) :=
  [("version", .str "1"),
   ("alg", .str "secp256k1+SHA-256"),
   ("eventType", .str "issued"),
   ("topicID", .str a.topicID),
   ("timestamp", .str ctx.nowIso),
   ("validFrom", .str ctx.nowIso),
   ("validUntil", .str a.validUntil),
   ("geoTag", match a.geo with | some g => .str g | none => .null),
   ("hashedPatientId", .str a.hashedPatientId),
   ("nftSerial", .str a.nftSerial),
   ("drugIds", .arr (a.drugIds.map JVal.str)),
   ("instructionsList", .arr (a.instructionsList.map JVal.str)),
   ("signerRole", .str "doctor"),
   ("maxDispenses", .num (jsOrNat a.maxDispenses 1)),
   ("dispenseCount", .num 0)]

/-- The `completePayload` built at lines 756–765: hash over
`{ ...fullPayload, nonce }`; when a doctor national id is supplied, `keyId`
is attached only after the content hash, then the whole object (contentHash
and keyId included) is signed. -/
def issuedEvent (c : CryptoM) (ctx : Ctx) (a : IssueArgs) (nationalId : Option String) : JVal :=
  let toHash := issuedFullPayload ctx a ++ [("nonce", .str ctx.nonceHex)]
  let contentHash := "sha256:" ++ c.sha (serializeJ (.obj toHash))
  let completePayload := toHash ++ [("contentHash", .str contentHash)]
  match nationalId with
  | some nid =>
      let withKey := completePayload ++ [("keyId", .str (keyIdOf c nid))]
      let signature := c.sign (.obj withKey) nid
      .obj (withKey ++ [("signature", .str ("hex:" ++ signature))])
  | none => .obj completePayload

/-! ## POST /api/verify (`src/backend/index.js` lines 917–1221) -/

/-- The validated verify request body; `geo`, when a `{lat, lng}` object was
sent, is carried as the joined template string the handler builds from it. -/
structure VReq where
  payload : Option Payload := none
  topicID : Option String := none
  doctorNationalId : Option String := none
  pharmacistNationalId : Option String := none
  pharmacyId : Option String := none
  geo : Option String := none

/-- Result of `checkFraud(issueGeotag, verifyGeotag)` (`utils/fraudDetection`
is not under src/; §4.7: non-fatal geospatial plausibility metadata). The
handler is parameterized over this check. -/
structure FraudResult where
  suspicious : Bool
  distance : Int := 0
  reason : String := ""
  issueCoords : String := ""
  verifyCoords : String := ""

/-- The fraud-alert metadata the handler attaches (lines 1130–1135). -/
structure FraudAlert where
  distance : Int
  reason : String
  issueLocation : String
  verifyLocation : String
deriving Repr, DecidableEq

def fraudAlertToJVal (fa : FraudAlert) : JVal :=
  .obj [("distance", .num fa.distance), ("reason", .str fa.reason),
        ("issueLocation", .str fa.issueLocation), ("verifyLocation", .str fa.verifyLocation)]

/-- An HTTP JSON response of the verify endpoint. In the success response the
`signatureValid` field is present but may be `null` (no doctor id supplied):
the outer `Option` is field presence, the inner one nullability. -/
structure VResp where
  status : Nat
  success : Bool
  valid : Option Bool := none
  message : Option String := none
  signatureValid : Option (Option Bool) := none
  fraudAlert : Option FraudAlert := none
deriving Repr, DecidableEq

/-- The reconstructed QR-shaped object the doctor signature is verified
against (lines 1067–1080). -/
structure SignedQR where
  v : Option String
  t : Option String
  h : Option String
  d : Option String
  q : Option String
  i : Option String
  u : Option Nat
  n : Option String
  g : Option String
  p : Option String
  dc : Nat
  md : Nat
deriving Repr, DecidableEq

def reconstructSignedQR (payload : Payload) : SignedQR :=
  { v := jsOrStr payload.v (jsOrStr payload.version (some "1.0"))
    t := jsOrStr payload.t payload.topicID
    h := jsOrStr payload.h payload.hashedPatientId
    d := jsOrStr payload.d (jsOrStr payload.drugId (payload.drugIds.bind List.head?))
    q := jsOrStr payload.q payload.quantity
    i := jsOrStr payload.i (jsOrStr payload.instructions (payload.instructionsList.bind List.head?))
    u := jsOrNatO payload.u payload.validUntil
    n := jsOrStr payload.n payload.nonce
    g := jsOrStr payload.g payload.geoTag
    p := jsOrStr payload.p payload.doctorIdHash
    dc := (jsNullish payload.dc payload.dispenseCount).getD 0
    md := (jsNullish payload.md payload.maxDispenses).getD 1 }

/-- Modelled from the spec: `decompressPayload` (§4.3,
`utils/hcsPayloadCompressor.js` not under src/) restores the long field names
from the short static-dictionary codes. Reached only when the incoming
payload is in compressed form (`e` present, `eventType` absent). -/
def decompressS (p : Payload) : Payload :=
  { p with
    eventType := jsNullish p.eventType p.e, e := none,
    topicID := jsNullish p.topicID p.t, t := none,
    version := jsNullish p.version p.v, v := none,
    hashedPatientId := jsNullish p.hashedPatientId p.h, h := none,
    drugId := jsNullish p.drugId p.d, d := none,
    quantity := jsNullish p.quantity p.q, q := none,
    instructions := jsNullish p.instructions p.i, i := none,
    validUntil := jsNullish p.validUntil p.u, u := none,
    nonce := jsNullish p.nonce p.n, n := none,
    geoTag := jsNullish p.geoTag p.g, g := none,
    doctorIdHash := jsNullish p.doctorIdHash p.p, p := none,
    dispenseCount := jsNullish p.dispenseCount p.dc, dc := none,
    maxDispenses := jsNullish p.maxDispenses p.md, md := none,
    signature := jsNullish p.signature p.s, s := none }

/-- The payload as a JSON object, for the one place the handler stringifies
it (the fallback hash at line 1148). The original key order of the incoming
JSON is not recoverable from the structured model; the value computed from
this is discarded before use — the very next line of the block raises the
`ok` ReferenceError (see the C5 theorems). -/
def payloadToJVal (p : Payload) : JVal :=
  .obj (optS "e" p.e ++ optS "eventType" p.eventType ++ optS "topicID" p.topicID ++
    optS "v" p.v ++ optS "version" p.version ++ optS "t" p.t ++ optS "h" p.h ++
    optS "hashedPatientId" p.hashedPatientId ++ optS "d" p.d ++ optS "drugId" p.drugId ++
    optF "drugIds" (p.drugIds.map (fun l => .arr (l.map JVal.str))) ++
    optS "q" p.q ++ optS "quantity" p.quantity ++ optS "i" p.i ++
    optS "instructions" p.instructions ++
    optF "instructionsList" (p.instructionsList.map (fun l => .arr (l.map JVal.str))) ++
    optF "u" (p.u.map JVal.num) ++ optF "validUntil" (p.validUntil.map JVal.num) ++
    optS "n" p.n ++ optS "nonce" p.nonce ++ optS "g" p.g ++ optS "geoTag" p.geoTag ++
    optS "p" p.p ++ optS "doctorIdHash" p.doctorIdHash ++
    optF "dc" (p.dc.map JVal.num) ++ optF "dispenseCount" (p.dispenseCount.map JVal.num) ++
    optF "md" (p.md.map JVal.num) ++ optF "maxDispenses" (p.maxDispenses.map JVal.num) ++
    optS "s" p.s ++ optS "signature" p.signature ++ optS "prescriptionId" p.prescriptionId ++
    optS "doctorNationalId" p.doctorNationalId ++ optS "timestamp" p.timestamp ++
    optS "lastDispenseDate" p.lastDispenseDate)

/-- Every identifier resolvable at line 1149 of `src/backend/index.js` (the
`verification` initializer inside the verify handler's try block): JS/Node
globals, the module-level declarations of `index.js`, the handler's
parameters and locals declared before that line, and the try block's own
earlier declarations (the shadowing destructured `queueMessage` /
`lastEventHashPerTopic` and `prevEventHash`). `ok` is not among them: the
only `const ok` in the file is block-scoped inside the /api/cnss-approve
handler (line 1644). -/
def verifyHandlerScope : List String :=
  ["require", "module", "exports", "__dirname", "__filename", "process",
   "console", "Buffer", "JSON", "Math", "Date", "Object", "Array", "String",
   "Number", "Boolean", "Promise", "Error", "RegExp", "Map", "Set",
   "setTimeout", "setInterval", "clearTimeout", "clearInterval", "global",
   "URL", "parseInt", "parseFloat", "isNaN", "undefined", "NaN", "Infinity",
   "express", "cors", "uuidv4", "helmet", "rateLimit", "storePrescription",
   "getPrescription", "submitAuditMessage", "buildFHIRPrescription",
   "sendEmail", "generatePrescriptionPdf", "generatePharmacistReport",
   "hashIdentifier", "issueOtp", "verifyOtp", "generateFSE", "orchestrator",
   "verifyPrescriptionOnMirror", "initQueue", "enqueueIssue", "waitForJob",
   "isQueueEnabled", "signToken", "authenticateJWT", "requireRole",
   "celebrate", "Joi", "Segments", "celebrateErrors", "crypto",
   "ensureKeyPair", "signPayload", "verifySignature", "putPayload",
   "queueMessage", "inMemoryStore", "lastEventHashPerTopic",
   "lastEventTypePerTopic", "hashLookup", "putSensitiveData",
   "getSensitiveData", "queueSyncLoop", "compressPayload",
   "decompressPayload", "compressGeotag", "path", "fs", "XLSX", "app",
   "PORT", "allowedOrigins", "limiter", "generatePrescriptionId",
   "generateInvoiceId", "cnopsCatalog", "normalizeKey", "pickField",
   "deriveCatalogRow", "loadCnopsCatalog", "users", "prescriptionIndex",
   "prescriptionToTopic", "topicIndex", "indexPersistence", "medicinesCache",
   "medicinesCacheTimestamp", "loadMedicinesCache",
   "req", "res", "payloadIn", "topicID", "doctorNationalId",
   "pharmacistNationalId", "pharmacyId", "normalizedTopicID",
   "normalizedDoctorId", "normalizedPharmacistId", "payload",
   "dispenseCount", "maxDispenses", "signatureValid", "signatureStatus",
   "fraudAlert", "prevEventHash"]

/-- The try block at lines 1146–1194 that would build and submit the
`verified` event, as an `Except`: `.error` is a thrown JS exception. Line
1148 computes the fallback `prevEventHash` (no throw); line 1149 evaluates
`!!ok`, and `ok` resolves in no enclosing scope, so the block throws a
ReferenceError there. The remainder transcribes lines 1149–1193; it is
reachable only under `"ok" ∈ verifyHandlerScope` (provably false), where the
model has no value for the nonexistent binding and uses `false`. -/
def verifiedMsgBase (c : CryptoM) (ctx : Ctx) (payload : Payload)
    (pharmacistRaw : Option String) (fraudAlert : Option FraudAlert)
    (okVal : Bool) (prevEventHash : String) : List (String × JVal) :=
  let verification : JVal := .obj
    [("signatureOk", .bool okVal),
     ("validUntilOk", .bool (!truthyN payload.validUntil ||
        decide (ctx.nowMs ≤ payload.validUntil.getD 0)))]
  [("version", .str "1"), ("alg", .str "secp256k1+SHA-256"),
   ("eventType", .str "verified")]
  ++ optF "topicID" (payload.topicID.map JVal.str)
  ++ [("timestamp", .str ctx.nowIso), ("signerRole", .str "pharmacist"),
      ("actorIdHash", if truthyS pharmacistRaw
        then .str (actorIdHashOf c ctx.salt (pharmacistRaw.getD ""))
        else .null),
      ("drugIds", match payload.drugIds with
        | some l => .arr (l.map JVal.str)
        | none => .arr [match payload.d with | some d => .str d | none => .null]),
      ("verification", verification),
      ("prevEventHash", .str prevEventHash),
      ("dispenseCount", .num (jsOrNat payload.dc 0)),
      ("maxDispenses", .num (jsOrNat payload.md 1))]
  ++ optF "fraudAlert" (fraudAlert.map fraudAlertToJVal)

/-- The `verified` message the dead block would build and submit (lines
1150–1175): signed when a pharmacist national id is truthy. -/
def verifiedEventShape (c : CryptoM) (ctx : Ctx) (payload : Payload)
    (pharmacistRaw : Option String) (fraudAlert : Option FraudAlert)
    (okVal : Bool) (prevEventHash : String) : JVal :=
  if truthyS pharmacistRaw
  then signedEventOf c ctx (pharmacistRaw.getD "")
    (verifiedMsgBase c ctx payload pharmacistRaw fraudAlert okVal prevEventHash)
  else .obj (verifiedMsgBase c ctx payload pharmacistRaw fraudAlert okVal prevEventHash)

def verifiedEventAttempt (c : CryptoM) (ctx : Ctx) (st : Store) (payload : Payload)
    (pharmacistRaw : Option String) (fraudAlert : Option FraudAlert) :
    Except String Store :=
  let prevEventHash := (jsOrStr (payload.topicID.bind (alookup st.lastEventHashPerTopic))
      (some ("sha256:" ++ c.sha (serializeJ (payloadToJVal payload))))).getD ""
  if "ok" ∈ verifyHandlerScope then
    let okVal := false
    let msg := verifiedEventShape c ctx payload pharmacistRaw fraudAlert okVal prevEventHash
    let stq : Store := { st with queued := st.queued ++ [(payload.topicID, "verified")] }
    let newHash := "sha256:" ++ c.sha (serializeJ msg)
    let st2 : Store :=
      match payload.topicID with
      | some t => { stq with
          lastEventHashPerTopic := aset stq.lastEventHashPerTopic t newHash,
          lastEventTypePerTopic := aset stq.lastEventTypePerTopic t "verified" }
      | none => stq
    .ok st2
  else .error "ReferenceError: ok is not defined"

/-- The same block with its `catch (_) { }`: a throw leaves the store as it
was. -/
def verifiedEventBlock (c : CryptoM) (ctx : Ctx) (st : Store) (payload : Payload)
    (pharmacistRaw : Option String) (fraudAlert : Option FraudAlert) : Store :=
  match verifiedEventAttempt c ctx st payload pharmacistRaw fraudAlert with
  | .ok st' => st'
  | .error _ => st

/-- JS `String.prototype.trim`: strip leading and trailing whitespace. -/
def jsTrim (s : String) : String :=
  String.mk (((s.data.dropWhile Char.isWhitespace).reverse.dropWhile
    Char.isWhitespace).reverse)

/-- JS `x && x.trim() !== '' ? x : undefined` — the empty-string normalization
of lines 934–936. -/
def normOpt (o : Option String) : Option String :=
  match o with
  | some t => if t != "" && jsTrim t != "" then some t else none
  | none => none

/-- Lines 1057–1099: the optional doctor-signature check, summarized as the
`signatureStatus.signatureValid` value the response reports (`none` = not
checked / null). An invalid or missing signature yields `some false` and
never a rejection. -/
def verifySigStatus (verifyP : SignedQR → String → String → Bool)
    (normalizedDoctorId : Option String) (payload : Payload) : Option Bool :=
  match normalizedDoctorId with
  | some did =>
      some (match jsOrStr payload.signature payload.s with
            | some sv => if sv != "" then verifyP (reconstructSignedQR payload) sv did else false
            | none => false)
  | none => none

/-- Lines 1118–1143: the fraud-detection metadata (non-fatal). -/
def verifyFraudAlert (fraudP : String → String → FraudResult) (payload : Payload)
    (geo : Option String) : Option FraudAlert :=
  let issueGeotag := jsOrStr payload.geoTag payload.g
  if truthyS issueGeotag && truthyS geo then
    let fc := fraudP (issueGeotag.getD "") (geo.getD "")
    if fc.suspicious then
      some { distance := fc.distance, reason := fc.reason,
             issueLocation := fc.issueCoords, verifyLocation := fc.verifyCoords }
    else none
  else none

/-- Lines 1119–1216: fraud check, the verified-event block, `logHCSEvent`,
and the success response. Shared tail of the three non-rejecting nonce
branches. -/
def verifyTail (c : CryptoM) (fraudP : String → String → FraudResult) (ctx : Ctx)
    (st : Store) (payload : Payload) (pharmacistRaw geo : Option String)
    (sigStatus : Option Bool) : VResp × Store :=
  let fraudAlert := verifyFraudAlert fraudP payload geo
  let st1 := verifiedEventBlock c ctx st payload pharmacistRaw fraudAlert
  let st2 : Store := { st1 with hcsLog := st1.hcsLog ++ [(payload.topicID, "verified")] }
  ({ status := 200, success := true, valid := some true,
     signatureValid := some sigStatus, fraudAlert := fraudAlert }, st2)

/-- The POST /api/verify handler (lines 929–1221). -/
def verifyHandler (c : CryptoM) (verifyP : SignedQR → String → String → Bool)
    (fraudP : String → String → FraudResult) (ctx : Ctx) (req : VReq) (st : Store) :
    VResp × Store :=
  -- lines 934–936: normalize empty strings to undefined
  let normalizedDoctorId := normOpt req.doctorNationalId
  let normalizedTopicID := normOpt req.topicID
  -- lines 944–974: payload resolution, 400 when nothing found
  let payload0 : Option Payload :=
    match req.payload with
    | some p => some p
    | none =>
        match normalizedTopicID with
        | some tid =>
            (match (alookup st.inMemory tid).map (fun e => e.payload) with
             | some p => some p
             | none =>
                 match alookup st.prescriptionIndex tid with
                 | some presc => some
                     { eventType := some "issued",
                       topicID := some tid,
                       prescriptionId := jsOrStr presc.prescriptionId presc.id,
                       doctorNationalId := jsOrStr presc.doctorNationalId normalizedDoctorId,
                       timestamp := jsOrStr presc.date (some ctx.nowIso),
                       maxDispenses := some (jsOrNat presc.maxDispenses 1) }
                 | none => none)
        | none => none
  match payload0 with
  | none =>
      ({ status := 400, success := false, valid := some false,
         message := some "Prescription not found. Please scan the QR code or look up the prescription first." }, st)
  | some payload1 =>
  -- lines 978–982: decompress when compressed ('e' present, 'eventType' absent)
  let payload := if truthyS payload1.e && !truthyS payload1.eventType
    then decompressS payload1 else payload1
  -- lines 985–1016: block when the last event says dispensed/paid and no
  -- dispenses remain
  let tOpt := payload.topicID.bind (fun t => alookup st.lastEventTypePerTopic t)
  let prescriptionData := payload.topicID.bind (alookup st.inMemory)
  let prescriptionRecord := payload.topicID.bind (alookup st.prescriptionIndex)
  let currentDC := jsOrNat (prescriptionData.bind (fun e => e.payload.dispenseCount))
      (jsOrNat (prescriptionRecord.bind (fun r => r.dispenseCount)) 0)
  let maxD := jsOrNat (prescriptionData.bind (fun e => e.payload.maxDispenses))
      (jsOrNat (prescriptionRecord.bind (fun r => r.maxDispenses))
        (jsOrNat payload.md (jsOrNat payload.maxDispenses 1)))
  if (tOpt == some "dispensed" || tOpt == some "paid") && currentDC ≥ maxD then
    ({ status := 409, success := false, valid := some false,
       message := some ("Prescription fully dispensed (" ++ Nat.repr currentDC ++
         "/" ++ Nat.repr maxD ++ ")") }, st)
  -- lines 1022–1024: QR version check
  else if truthyS payload.v && payload.v != some "1.0" then
    ({ status := 400, success := false, valid := some false,
       message := some "Unsupported QR version" }, st)
  -- lines 1027–1040: expiration check
  else if truthyN payload.u && decide (ctx.nowMs > payload.u.getD 0) then
    ({ status := 400, success := false, valid := some false,
       message := some "Prescription expired" }, st)
  else
  -- lines 1044–1055: dispense-count validation (nullish coalescing)
  let dcOpt := jsNullish payload.dispenseCount payload.dc
  let mdOpt := jsNullish payload.maxDispenses payload.md
  if dcOpt.isSome && mdOpt.isSome && dcOpt.getD 0 ≥ mdOpt.getD 0 then
    ({ status := 400, success := false, valid := some false,
       message := some ("Prescription fully dispensed (" ++ Nat.repr (dcOpt.getD 0) ++
         "/" ++ Nat.repr (mdOpt.getD 0) ++ ")") }, st)
  else
  -- lines 1057–1105: optional doctor signature verification; an invalid or
  -- missing signature is logged and does not reject
  let sigStatus := verifySigStatus verifyP normalizedDoctorId payload
  -- lines 1107–1116: nonce replay prevention
  match payload.nonce with
  | some nz =>
      if nz != "" then
        if nz ∈ st.usedNonces then
          ({ status := 409, success := false, valid := some false,
             message := some "Duplicate prescription nonce" }, st)
        else
          verifyTail c fraudP ctx { st with usedNonces := st.usedNonces ++ [nz] }
            payload req.pharmacistNationalId req.geo sigStatus
      else
        verifyTail c fraudP ctx st payload req.pharmacistNationalId req.geo sigStatus
  | none =>
      verifyTail c fraudP ctx st payload req.pharmacistNationalId req.geo sigStatus

/-- The stored entry after a successful dispense (lines 1584–1602): count and
last-dispense date written back, status overwritten to `dispensed`. -/
def dispensedEntryUpdate (e : Entry) (newCount : Nat) (nowIso : String) : Entry :=
  { payload := { e.payload with
      dispenseCount := some newCount,
      lastDispenseDate := some nowIso },
    status := some "dispensed" }

/-- Runs `k` sequential dispense requests (same request body, fresh lock each
time as the handler releases it on completion). -/
def iterDispense (c : CryptoM) (orc : DOracle) (ctx : Ctx) (req : DReq) :
    Nat → Store → Store
  | 0, st => st
  | k + 1, st => (dispenseHandler c orc ctx req (iterDispense c orc ctx req k st)).2

/-- The C1 invariant: the channel's stored entry carries the given dispense
count and `maxDispenses`, and its dispense lock is free. -/
def C1Inv (tid : String) (N cnt : Nat) (st : Store) : Prop :=
  (∃ e, alookup st.inMemory tid = some e ∧
     e.payload.dispenseCount = some cnt ∧ e.payload.maxDispenses = some N) ∧
  alookup st.locks tid = none

/-! ## PayloadCompressor / Decompressor (spec §4.3, §6)

Modelled from the spec: `utils/hcsPayloadCompressor.js` is not under `src/`.
Per §4.3, a static dictionary maps long field names to short codes
(eventType→e, topicID→t, dispenseCount→dc, …; §6 lists further short keys),
and a value dictionary (`hashLookup`) maps frequently repeated long values to
short tokens. Compression is the bijective renaming of keys plus value
substitution; numbers are untouched and absent optional fields stay absent
(the field list simply lacks them). The compressed-form detection
(`payload?.e && !payload?.eventType`) is transcribed from index.js line 978. -/

def staticKeyDict : List (String × String) :=
  [("version", "v"), ("alg", "al"), ("eventType", "e"), ("topicID", "t"),
   ("timestamp", "ts"), ("signerRole", "sr"), ("actorIdHash", "a"),
   ("hashedPatientId", "h"), ("validFrom", "vf"), ("validUntil", "u"),
   ("geoTag", "g"), ("nftSerial", "ns"), ("drugIds", "d"),
   ("instructionsList", "i"), ("maxDispenses", "md"), ("dispenseCount", "dc"),
   ("nonce", "n"), ("contentHash", "c"), ("keyId", "k"), ("signature", "s"),
   ("prevEventHash", "ph"), ("amountMAD", "am"), ("method", "m"),
   ("items", "it"), ("totals", "to"), ("paymentMethod", "pm"),
   ("verification", "vr"), ("fraudAlert", "fa")]

def encodeKey (k : String) : String :=
  match alookup staticKeyDict k with
  | some s => s
  | none => k

def decodeKey (k : String) : String :=
  match (staticKeyDict.find? (fun p => p.2 == k)).map Prod.fst with
  | some l => l
  | none => k

def encodeValS (vd : List (String × String)) (s : String) : String :=
  match alookup vd s with
  | some t => t
  | none => s

def decodeValS (vd : List (String × String)) (s : String) : String :=
  match (vd.find? (fun p => p.2 == s)).map Prod.fst with
  | some l => l
  | none => s

def encodeVal (vd : List (String × String)) : JVal → JVal
  | .str s => .str (encodeValS vd s)
  | v => v

def decodeVal (vd : List (String × String)) : JVal → JVal
  | .str s => .str (decodeValS vd s)
  | v => v

def compressPayloadJ (vd : List (String × String)) : JVal → JVal
  | .obj fs => .obj (fs.map (fun p => (encodeKey p.1, encodeVal vd p.2)))
  | v => v

def decompressPayloadJ (vd : List (String × String)) : JVal → JVal
  | .obj fs => .obj (fs.map (fun p => (decodeKey p.1, decodeVal vd p.2)))
  | v => v

/-- JS truthiness of an object-field access (`obj?.k`). -/
def jvTruthy : Option JVal → Bool
  | none => false
  | some .null => false
  | some (.bool b) => b
  | some (.num n) => n != 0
  | some (.str s) => s != ""
  | some (.arr _) => true
  | some (.obj _) => true

/-- index.js line 978: a payload is treated as compressed iff `payload?.e`
is truthy and `payload?.eventType` is not. -/
def isCompressedJS (v : JVal) : Bool :=
  jvTruthy (objGet v "e") && !jvTruthy (objGet v "eventType")

def objFields : JVal → List (String × JVal)
  | .obj fs => fs
  | _ => []

/-- Checker: every key of the field list survives the encode/decode key
round trip. -/
def goodKeysB : List (String × JVal) → Bool
  | [] => true
  | (k, _) :: fs => (decodeKey (encodeKey k) == k) && goodKeysB fs

/-- Checker: every string-valued field survives the value dictionary's
encode/decode round trip (non-string values are untouched by it). -/
def goodValsB (vd : List (String × String)) : List (String × JVal) → Bool
  | [] => true
  | (_, .str s) :: fs => (decodeValS vd (encodeValS vd s) == s) && goodValsB vd fs
  | (_, _) :: fs => goodValsB vd fs

/-! ## Lemmas about the association-list operations -/

theorem jsNullish_some {α : Type} (x : α) (b : Option α) : jsNullish (some x) b = some x := rfl

theorem jsNullish_none {α : Type} (b : Option α) : jsNullish none b = b := rfl

theorem alookup_append_eq {α : Type} (k : String) (fs gs : List (String × α)) :
    alookup (fs ++ gs) k = jsNullish (alookup fs k) (alookup gs k) := by
  induction fs with
  | nil => simp [alookup, jsNullish]
  | cons p rest ih =>
      by_cases h : p.1 == k
      · simp [alookup, List.find?, h, jsNullish]
      · simp only [List.cons_append, alookup, List.find?, h] at *
        exact ih

theorem alookup_aset_self {α : Type} (fs : List (String × α)) (k : String) (v : α) :
    alookup (aset fs k v) k = some v := by
  induction fs with
  | nil => simp [aset, alookup, List.find?]
  | cons p rest ih =>
      obtain ⟨k', v'⟩ := p
      by_cases h : k' == k
      · simp [aset, h, alookup, List.find?]
      · simp only [aset, h, if_false, Bool.false_eq_true]
        simpa [alookup, List.find?, h] using ih

theorem alookup_aset_ne {α : Type} (fs : List (String × α)) (k k' : String) (v : α)
    (h : k ≠ k') : alookup (aset fs k v) k' = alookup fs k' := by
  have hkk : (k == k') = false := by simpa using h
  induction fs with
  | nil => simp [aset, alookup, List.find?, hkk]
  | cons p rest ih =>
      obtain ⟨k0, v0⟩ := p
      by_cases hp : k0 == k
      · have hk0 : k0 = k := by simpa using hp
        simp [aset, hp, alookup, List.find?, hk0, hkk]
      · simp only [aset, hp, if_false, Bool.false_eq_true]
        by_cases hq : k0 == k'
        · simp [alookup, List.find?, hq]
        · simpa [alookup, List.find?, hq] using ih

theorem alookup_adel_self {α : Type} (fs : List (String × α)) (k : String) :
    alookup (adel fs k) k = none := by
  induction fs with
  | nil => simp [adel, alookup]
  | cons p rest ih =>
      obtain ⟨k', v'⟩ := p
      by_cases h : k' == k
      · have hb : (k' != k) = false := by simp [bne, h]
        simpa [adel, List.filter_cons, hb] using ih
      · have hb : (k' != k) = true := by simp [bne, h]
        simp only [adel, List.filter_cons, hb, if_true]
        simpa [alookup, List.find?, h, adel] using ih

/-! ## Theorems for the claims -/

set_option maxRecDepth 10000 in
/-- FIPS 180-4 test vector: the SHA-256 implementation is the real one. -/
theorem sha256hexS_test_vector :
    sha256hexS "abc" =
      "ba7816bf8f01cfea414140de5dae2223b00361a396177a9cb410ff61f20015ad" := by
  decide

/-- C2: a dispense request that finds the per-channel lock held by a different
owner is rejected immediately with 409 / CONCURRENT_DISPENSE_ATTEMPT, and the
shared state (dispense counts, last event hash/type, status, everything) is
returned exactly as it was. -/
theorem C2_lock_conflict_rejects_without_mutation
    (c : CryptoM) (orc : DOracle) (ctx : Ctx) (req : DReq) (st : Store)
    (owner : String)
    (hheld : alookup st.locks req.topicID = some owner)
    (hother : owner ≠ req.pharmacistNationalId) :
    dispenseHandler c orc ctx req st =
      ({ resp := { status := 409, success := false,
                   message := some "Another dispense operation is in progress for this prescription",
                   error := some "CONCURRENT_DISPENSE_ATTEMPT" } }, st) := by
  have hbeq : (owner == req.pharmacistNationalId) = false := by
    simp [hother]
  simp [dispenseHandler, acquireDispenseLock, hheld, hbeq]

/-- C2 witness. -/
theorem C2_lock_conflict_rejects_without_mutation_witness :
    (dispenseHandler cryptoR {} {} { topicID := "0.0.77", pharmacistNationalId := "PH2" }
        { locks := [("0.0.77", "PH1")] }).1.resp.status = 409 ∧
    (dispenseHandler cryptoR {} {} { topicID := "0.0.77", pharmacistNationalId := "PH2" }
        { locks := [("0.0.77", "PH1")] }).1.resp.error = some "CONCURRENT_DISPENSE_ATTEMPT" ∧
    (dispenseHandler cryptoR {} {} { topicID := "0.0.77", pharmacistNationalId := "PH2" }
        { locks := [("0.0.77", "PH1")] }).2 = { locks := [("0.0.77", "PH1")] } := by
  have h := C2_lock_conflict_rejects_without_mutation cryptoR {} {}
    { topicID := "0.0.77", pharmacistNationalId := "PH2" }
    { locks := [("0.0.77", "PH1")] } "PH1" (by rfl) (by decide)
  rw [h]
  exact ⟨rfl, rfl, rfl⟩

theorem alookup_append_some {α : Type} {fs gs : List (String × α)} {k : String} {v : α}
    (h : alookup fs k = some v) : alookup (fs ++ gs) k = some v := by
  rw [alookup_append_eq, h]; rfl

theorem alookup_append_none {α : Type} {fs gs : List (String × α)} {k : String}
    (h : alookup fs k = none) : alookup (fs ++ gs) k = alookup gs k := by
  rw [alookup_append_eq, h]; rfl

theorem alookup_optF_self (k : String) (o : Option JVal) :
    alookup (optF k o) k = o := by
  cases o <;> simp [optF, alookup, List.find?]

theorem alookup_optS_self (k : String) (o : Option String) :
    alookup (optS k o) k = o.map JVal.str := by
  cases o <;> simp [optS, optF, alookup, List.find?]

/-- C10: once the dispense handler has acquired the per-channel lock, every
terminating path — the fully-dispensed rejection, the thrown-exception path,
and successful completion — leaves the channel's lock released. -/
theorem C10_dispense_releases_lock
    (c : CryptoM) (orc : DOracle) (ctx : Ctx) (req : DReq) (st : Store)
    (hacq : (acquireDispenseLock st.locks req.topicID req.pharmacistNationalId).1 = true) :
    alookup ((dispenseHandler c orc ctx req st).2).locks req.topicID = none := by
  have he : (true, (acquireDispenseLock st.locks req.topicID req.pharmacistNationalId).2)
      = acquireDispenseLock st.locks req.topicID req.pharmacistNationalId := by
    rw [← hacq]
  unfold dispenseHandler
  rw [← he]
  dsimp only
  split_ifs with h1 h2
  · exact alookup_adel_self _ _
  · exact alookup_adel_self _ _
  · simp only [dispenseSensitiveUpdate, setTopicStatus]
    split <;> split <;> split <;> exact alookup_adel_self _ _

/-- C10 witness: a concrete run (free lock, empty store) ends with the lock
free. -/
theorem C10_dispense_releases_lock_witness :
    (acquireDispenseLock (Store.locks {}) "0.0.9" "PH1").1 = true ∧
    alookup ((dispenseHandler cryptoR {} {}
        { topicID := "0.0.9", pharmacistNationalId := "PH1" } {}).2).locks "0.0.9" = none :=
  ⟨rfl, C10_dispense_releases_lock cryptoR {} {}
    { topicID := "0.0.9", pharmacistNationalId := "PH1" } {} rfl⟩

theorem dispensedBase_eventType (c : CryptoM) (ctx : Ctx) (req : DReq)
    (cp : Option String) (n m : Nat) :
    alookup (dispensedBase c ctx req cp n m) "eventType" = some (.str "dispensed") := by
  unfold dispensedBase
  cases req.items <;> cases req.totals <;> cases jsOrStr req.paymentMethod none <;>
    cases cp <;> rfl

theorem dispensedBase_topicID (c : CryptoM) (ctx : Ctx) (req : DReq)
    (cp : Option String) (n m : Nat) :
    alookup (dispensedBase c ctx req cp n m) "topicID" = some (.str req.topicID) := by
  unfold dispensedBase
  cases req.items <;> cases req.totals <;> cases jsOrStr req.paymentMethod none <;>
    cases cp <;> rfl

theorem dispensedBase_dispenseCount (c : CryptoM) (ctx : Ctx) (req : DReq)
    (cp : Option String) (n m : Nat) :
    alookup (dispensedBase c ctx req cp n m) "dispenseCount" = some (.num n) := by
  unfold dispensedBase
  cases req.items <;> cases req.totals <;> cases jsOrStr req.paymentMethod none <;>
    cases cp <;> rfl

theorem dispensedBase_maxDispenses (c : CryptoM) (ctx : Ctx) (req : DReq)
    (cp : Option String) (n m : Nat) :
    alookup (dispensedBase c ctx req cp n m) "maxDispenses" = some (.num m) := by
  unfold dispensedBase
  cases req.items <;> cases req.totals <;> cases jsOrStr req.paymentMethod none <;>
    cases cp <;> rfl

theorem dispensedBase_prevEventHash (c : CryptoM) (ctx : Ctx) (req : DReq)
    (cp : Option String) (n m : Nat) :
    alookup (dispensedBase c ctx req cp n m) "prevEventHash" = cp.map JVal.str := by
  unfold dispensedBase
  cases req.items <;> cases req.totals <;> cases jsOrStr req.paymentMethod none <;>
    cases cp <;> rfl

theorem dispensedEvent_get (c : CryptoM) (ctx : Ctx) (req : DReq)
    (cp : Option String) (n m : Nat) (k : String) (v : JVal)
    (hk : alookup (dispensedBase c ctx req cp n m) k = some v) :
    objGet (dispensedEvent c ctx req cp n m) k = some v := by
  unfold dispensedEvent signedEventOf
  exact alookup_append_some (alookup_append_some (alookup_append_some hk))

theorem dispensedEvent_signature_isSome (c : CryptoM) (ctx : Ctx) (req : DReq)
    (cp : Option String) (n m : Nat) :
    (objGet (dispensedEvent c ctx req cp n m) "signature").isSome = true := by
  unfold dispensedEvent signedEventOf dispensedBase
  cases req.items <;> cases req.totals <;> cases jsOrStr req.paymentMethod none <;>
    cases cp <;> rfl

/-- The success run of the dispense handler: free lock, no thrown signing
error, and remaining dispenses (`dc < N` after the `|| 0` / `|| 1`
defaulting). Gives the response, the built event, the queued submission, the
released lock, and the updated stored entry. -/
theorem dispense_success_spec (c : CryptoM) (orc : DOracle) (ctx : Ctx) (req : DReq)
    (st : Store) (dc N : Nat)
    (hlock : alookup st.locks req.topicID = none)
    (hsign : orc.signThrows = false)
    (hdc : jsOrNat ((alookup st.inMemory req.topicID).bind (fun e => e.payload.dispenseCount)) 0 = dc)
    (hN : jsOrNat ((alookup st.inMemory req.topicID).bind (fun e => e.payload.maxDispenses)) 1 = N)
    (hlt : dc < N) :
    (dispenseHandler c orc ctx req st).1 =
      { resp := { status := 200, success := true },
        event := some (dispensedEvent c ctx req
          (jsOrStr req.prevEventHash (jsOrStr (alookup st.lastEventHashPerTopic req.topicID) none))
          (dc + 1) N) } ∧
    (some req.topicID, "dispensed") ∈ (dispenseHandler c orc ctx req st).2.queued ∧
    alookup ((dispenseHandler c orc ctx req st).2).locks req.topicID = none ∧
    (∀ e, alookup st.inMemory req.topicID = some e →
      alookup ((dispenseHandler c orc ctx req st).2).inMemory req.topicID =
        some (dispensedEntryUpdate e (dc + 1) ctx.nowIso)) := by
  have hacq : acquireDispenseLock st.locks req.topicID req.pharmacistNationalId =
      (true, aset st.locks req.topicID req.pharmacistNationalId) := by
    simp [acquireDispenseLock, hlock]
  unfold dispenseHandler
  rw [hacq]
  dsimp only
  rw [hdc, hN, hsign]
  rw [if_neg (by omega), if_neg (by simp)]
  refine ⟨rfl, ?_, ?_, ?_⟩
  · simp only [dispenseSensitiveUpdate, setTopicStatus]
    repeat' split
    all_goals simp
  · simp only [dispenseSensitiveUpdate, setTopicStatus]
    repeat' split
    all_goals simp [releaseDispenseLock, alookup_adel_self]
  · intro e he
    rw [he]
    simp only [dispenseSensitiveUpdate]
    repeat' split
    all_goals simp_all [setTopicStatus, releaseDispenseLock, alookup_aset_self,
      dispensedEntryUpdate]

theorem jsOrNat_some_zero (n : Nat) : jsOrNat (some n) 0 = n := by
  cases n <;> simp [jsOrNat]

theorem jsOrNat_some_of_pos (n d : Nat) (h : 0 < n) : jsOrNat (some n) d = n := by
  cases n with
  | zero => omega
  | succ m => simp [jsOrNat]

/-- The rejection run of the dispense handler: no dispenses remain
(`N ≤ dc` after defaulting). The lock is released and the store's channel
data is untouched. -/
theorem dispense_reject_spec (c : CryptoM) (orc : DOracle) (ctx : Ctx) (req : DReq)
    (st : Store) (dc N : Nat)
    (hlock : alookup st.locks req.topicID = none)
    (hdc : jsOrNat ((alookup st.inMemory req.topicID).bind (fun e => e.payload.dispenseCount)) 0 = dc)
    (hN : jsOrNat ((alookup st.inMemory req.topicID).bind (fun e => e.payload.maxDispenses)) 1 = N)
    (hge : N ≤ dc) :
    (dispenseHandler c orc ctx req st).1 =
      { resp := { status := 400, success := false,
                  message := some ("Prescription fully dispensed (" ++ Nat.repr dc ++
                    "/" ++ Nat.repr N ++ ")") } } ∧
    (dispenseHandler c orc ctx req st).2.inMemory = st.inMemory ∧
    (dispenseHandler c orc ctx req st).2.lastEventHashPerTopic = st.lastEventHashPerTopic ∧
    (dispenseHandler c orc ctx req st).2.lastEventTypePerTopic = st.lastEventTypePerTopic ∧
    (dispenseHandler c orc ctx req st).2.queued = st.queued ∧
    alookup ((dispenseHandler c orc ctx req st).2).locks req.topicID = none := by
  have hacq : acquireDispenseLock st.locks req.topicID req.pharmacistNationalId =
      (true, aset st.locks req.topicID req.pharmacistNationalId) := by
    simp [acquireDispenseLock, hlock]
  unfold dispenseHandler
  rw [hacq]
  dsimp only
  rw [hdc, hN, if_pos (by omega)]
  exact ⟨rfl, rfl, rfl, rfl, rfl, alookup_adel_self _ _⟩

/-- C9: dispensing against a topicID with no stored record is not rejected:
the request succeeds (HTTP 200), a signed `dispensed` event is built for that
topicID with the defaulted counts (`dispenseCount` 1 of `maxDispenses` 1),
and it is queued for submission. -/
theorem C9_unknown_topic_dispense_succeeds
    (c : CryptoM) (orc : DOracle) (ctx : Ctx) (req : DReq) (st : Store)
    (hmem : alookup st.inMemory req.topicID = none)
    (hlock : alookup st.locks req.topicID = none)
    (hsign : orc.signThrows = false) :
    (dispenseHandler c orc ctx req st).1.resp.status = 200 ∧
    (dispenseHandler c orc ctx req st).1.resp.success = true ∧
    (some req.topicID, "dispensed") ∈ (dispenseHandler c orc ctx req st).2.queued ∧
    ∃ ev, (dispenseHandler c orc ctx req st).1.event = some ev ∧
      objGet ev "eventType" = some (.str "dispensed") ∧
      objGet ev "topicID" = some (.str req.topicID) ∧
      objGet ev "dispenseCount" = some (.num 1) ∧
      objGet ev "maxDispenses" = some (.num 1) ∧
      (objGet ev "signature").isSome = true := by
  obtain ⟨h1, h2, _, _⟩ := dispense_success_spec c orc ctx req st 0 1 hlock hsign
    (by rw [hmem]; rfl) (by rw [hmem]; rfl) (by omega)
  refine ⟨by rw [h1], by rw [h1], h2, _, by rw [h1], ?_, ?_, ?_, ?_, ?_⟩
  · exact dispensedEvent_get _ _ _ _ _ _ _ _ (dispensedBase_eventType _ _ _ _ _ _)
  · exact dispensedEvent_get _ _ _ _ _ _ _ _ (dispensedBase_topicID _ _ _ _ _ _)
  · exact dispensedEvent_get _ _ _ _ _ _ _ _ (dispensedBase_dispenseCount _ _ _ _ _ _)
  · exact dispensedEvent_get _ _ _ _ _ _ _ _ (dispensedBase_maxDispenses _ _ _ _ _ _)
  · exact dispensedEvent_signature_isSome _ _ _ _ _ _

/-- C9 witness: a dispense against an empty store succeeds and builds the
signed event. -/
theorem C9_unknown_topic_dispense_succeeds_witness :
    (dispenseHandler cryptoR {} {} { topicID := "0.0.55", pharmacistNationalId := "PH1" } {}).1.resp.status = 200 ∧
    (dispenseHandler cryptoR {} {} { topicID := "0.0.55", pharmacistNationalId := "PH1" } {}).1.resp.success = true ∧
    (some "0.0.55", "dispensed") ∈ (dispenseHandler cryptoR {} {} { topicID := "0.0.55", pharmacistNationalId := "PH1" } {}).2.queued ∧
    ∃ ev, (dispenseHandler cryptoR {} {} { topicID := "0.0.55", pharmacistNationalId := "PH1" } {}).1.event = some ev ∧
      objGet ev "eventType" = some (.str "dispensed") ∧
      objGet ev "topicID" = some (.str "0.0.55") ∧
      objGet ev "dispenseCount" = some (.num 1) ∧
      objGet ev "maxDispenses" = some (.num 1) ∧
      (objGet ev "signature").isSome = true :=
  C9_unknown_topic_dispense_succeeds cryptoR {} {}
    { topicID := "0.0.55", pharmacistNationalId := "PH1" } {} rfl rfl rfl

theorem C1Inv_step_success (c : CryptoM) (orc : DOracle) (ctx : Ctx) (req : DReq)
    (st : Store) (N cnt : Nat)
    (hinv : C1Inv req.topicID N cnt st) (hlt : cnt < N)
    (hsign : orc.signThrows = false) :
    (dispenseHandler c orc ctx req st).1.resp = { status := 200, success := true } ∧
    C1Inv req.topicID N (cnt + 1) ((dispenseHandler c orc ctx req st).2) := by
  obtain ⟨⟨e, he, hcnt, hmax⟩, hlock⟩ := hinv
  obtain ⟨h1, _, h3, h4⟩ := dispense_success_spec c orc ctx req st cnt N hlock hsign
    (by rw [he]; simp only [Option.some_bind]; rw [hcnt, jsOrNat_some_zero])
    (by rw [he]; simp only [Option.some_bind]; rw [hmax]
        exact jsOrNat_some_of_pos N 1 (by omega))
    hlt
  refine ⟨by rw [h1], ⟨⟨_, h4 e he, ?_, ?_⟩, h3⟩⟩
  · simp [dispensedEntryUpdate]
  · simpa [dispensedEntryUpdate] using hmax

theorem C1Inv_step_reject (c : CryptoM) (orc : DOracle) (ctx : Ctx) (req : DReq)
    (st : Store) (N : Nat)
    (hinv : C1Inv req.topicID N N st) (hN : 1 ≤ N) :
    (dispenseHandler c orc ctx req st).1.resp =
      { status := 400, success := false,
        message := some ("Prescription fully dispensed (" ++ Nat.repr N ++
          "/" ++ Nat.repr N ++ ")") } ∧
    C1Inv req.topicID N N ((dispenseHandler c orc ctx req st).2) := by
  obtain ⟨⟨e, he, hcnt, hmax⟩, hlock⟩ := hinv
  obtain ⟨h1, h2, _, _, _, h6⟩ := dispense_reject_spec c orc ctx req st N N hlock
    (by rw [he]; simp only [Option.some_bind]; rw [hcnt]
        exact jsOrNat_some_of_pos N 0 (by omega))
    (by rw [he]; simp only [Option.some_bind]; rw [hmax]
        exact jsOrNat_some_of_pos N 1 (by omega))
    (le_refl N)
  refine ⟨by rw [h1], ⟨⟨e, ?_, hcnt, hmax⟩, h6⟩⟩
  rw [h2, he]

theorem C1Inv_iter (c : CryptoM) (orc : DOracle) (ctx : Ctx) (req : DReq)
    (st0 : Store) (N : Nat)
    (h0 : C1Inv req.topicID N 0 st0) (hN : 1 ≤ N)
    (hsign : orc.signThrows = false) :
    ∀ k, C1Inv req.topicID N (min k N) (iterDispense c orc ctx req k st0) := by
  intro k
  induction k with
  | zero => simpa using h0
  | succ k ih =>
      by_cases hk : k < N
      · have hmink : min k N = k := by omega
        have hmink1 : min (k + 1) N = k + 1 := by omega
        rw [hmink] at ih
        have := (C1Inv_step_success c orc ctx req _ N k ih hk hsign).2
        rw [hmink1]
        simpa [iterDispense] using this
      · have hmin : min k N = N := by omega
        rw [hmin] at ih
        have := (C1Inv_step_reject c orc ctx req _ N ih hN).2
        have hmin2 : min (k + 1) N = N := by omega
        rw [hmin2]
        simpa [iterDispense] using this

/-- C1: with a stored channel at `dispenseCount = 0`, `maxDispenses = N ≥ 1`
(and a free lock), each of the first N sequential dispense calls succeeds and
raises the stored count to exactly `i + 1`; the (N+1)-th call is rejected
with the message `Prescription fully dispensed (N/N)`; and after any number
of calls the stored dispenseCount is `min k N`, never exceeding N. -/
theorem C1_dispense_counting
    (c : CryptoM) (orc : DOracle) (ctx : Ctx) (req : DReq) (st0 : Store)
    (N : Nat) (e0 : Entry)
    (hmem : alookup st0.inMemory req.topicID = some e0)
    (hcnt0 : e0.payload.dispenseCount = some 0)
    (hmax0 : e0.payload.maxDispenses = some N)
    (hlock : alookup st0.locks req.topicID = none)
    (hN : 1 ≤ N)
    (hsign : orc.signThrows = false) :
    (∀ i, i < N →
      (dispenseHandler c orc ctx req (iterDispense c orc ctx req i st0)).1.resp =
        { status := 200, success := true } ∧
      ∃ e, alookup (iterDispense c orc ctx req (i + 1) st0).inMemory req.topicID = some e ∧
        e.payload.dispenseCount = some (i + 1)) ∧
    ((dispenseHandler c orc ctx req (iterDispense c orc ctx req N st0)).1.resp =
      { status := 400, success := false,
        message := some ("Prescription fully dispensed (" ++ Nat.repr N ++
          "/" ++ Nat.repr N ++ ")") }) ∧
    (∀ k, ∃ e, alookup (iterDispense c orc ctx req k st0).inMemory req.topicID = some e ∧
      e.payload.dispenseCount = some (min k N) ∧ min k N ≤ N) := by
  have h0 : C1Inv req.topicID N 0 st0 := ⟨⟨e0, hmem, hcnt0, hmax0⟩, hlock⟩
  have hiter := C1Inv_iter c orc ctx req st0 N h0 hN hsign
  refine ⟨?_, ?_, ?_⟩
  · intro i hi
    have hmin : min i N = i := by omega
    have hstep := C1Inv_step_success c orc ctx req _ N i
      (by simpa [hmin] using hiter i) hi hsign
    refine ⟨hstep.1, ?_⟩
    obtain ⟨⟨e, he, hc, _⟩, _⟩ := hiter (i + 1)
    exact ⟨e, he, by simpa [Nat.min_def, Nat.succ_le_of_lt hi] using hc⟩
  · have hmin : min N N = N := by omega
    exact (C1Inv_step_reject c orc ctx req _ N (by simpa [hmin] using hiter N) hN).1
  · intro k
    obtain ⟨⟨e, he, hc, _⟩, _⟩ := hiter k
    exact ⟨e, he, hc, by omega⟩

/-- C1 witness: maxDispenses = 2 — the first call succeeds, the third call is
rejected with "Prescription fully dispensed (2/2)", counts stay ≤ 2. -/
theorem C1_dispense_counting_witness :
    (dispenseHandler cryptoR {} {} { topicID := "T", pharmacistNationalId := "PH1" }
        { inMemory := [("T", { payload := { dispenseCount := some 0, maxDispenses := some 2 } })] }).1.resp =
      { status := 200, success := true } ∧
    (dispenseHandler cryptoR {} {} { topicID := "T", pharmacistNationalId := "PH1" }
        (iterDispense cryptoR {} {} { topicID := "T", pharmacistNationalId := "PH1" } 2
          { inMemory := [("T", { payload := { dispenseCount := some 0, maxDispenses := some 2 } })] })).1.resp =
      { status := 400, success := false,
        message := some "Prescription fully dispensed (2/2)" } ∧
    (∃ e, alookup (iterDispense cryptoR {} {} { topicID := "T", pharmacistNationalId := "PH1" } 5
        { inMemory := [("T", { payload := { dispenseCount := some 0, maxDispenses := some 2 } })] }).inMemory "T" =
      some e ∧ e.payload.dispenseCount = some 2 ∧ (2 : Nat) ≤ 2) := by
  have h := C1_dispense_counting cryptoR {} {} { topicID := "T", pharmacistNationalId := "PH1" }
    { inMemory := [("T", { payload := { dispenseCount := some 0, maxDispenses := some 2 } })] }
    2 { payload := { dispenseCount := some 0, maxDispenses := some 2 } }
    rfl rfl rfl rfl (by omega) rfl
  exact ⟨(h.1 0 (by omega)).1, h.2.1, h.2.2 5⟩

/-- C5: the verified-event block of /api/verify reads the local `ok` for its
`verification.signatureOk` flag, and `ok` is not declared in any enclosing
scope; every execution that reaches the block therefore throws a
ReferenceError at that line, the catch branch swallows it, and the block
neither submits a `verified` event nor changes the store (in particular
`lastEventHashPerTopic`/`lastEventTypePerTopic` stay as they were). -/
theorem verifiedEventAttempt_raises (c : CryptoM) (ctx : Ctx) (st : Store)
    (payload : Payload) (pharmacistRaw : Option String) (fraudAlert : Option FraudAlert) :
    verifiedEventAttempt c ctx st payload pharmacistRaw fraudAlert =
      .error "ReferenceError: ok is not defined" := by
  have hok : "ok" ∉ verifyHandlerScope := by decide
  unfold verifiedEventAttempt
  rw [if_neg hok]

theorem verifiedEventBlock_id (c : CryptoM) (ctx : Ctx) (st : Store)
    (payload : Payload) (pharmacistRaw : Option String) (fraudAlert : Option FraudAlert) :
    verifiedEventBlock c ctx st payload pharmacistRaw fraudAlert = st := by
  unfold verifiedEventBlock
  rw [verifiedEventAttempt_raises]

theorem C5_verified_block_reference_error
    (c : CryptoM) (ctx : Ctx) (st : Store) (payload : Payload)
    (pharmacistRaw : Option String) (fraudAlert : Option FraudAlert) :
    verifiedEventAttempt c ctx st payload pharmacistRaw fraudAlert =
      .error "ReferenceError: ok is not defined" ∧
    verifiedEventBlock c ctx st payload pharmacistRaw fraudAlert = st :=
  ⟨verifiedEventAttempt_raises c ctx st payload pharmacistRaw fraudAlert,
   verifiedEventBlock_id c ctx st payload pharmacistRaw fraudAlert⟩

/-- A verify request whose payload passes every gate before the nonce check
and presents a fresh truthy nonce: the handler consumes the nonce, the dead
verified-event block leaves the maps untouched, and the response is the
success response carrying the signature status. -/
theorem verify_success_run (c : CryptoM) (verifyP : SignedQR → String → String → Bool)
    (fraudP : String → String → FraudResult) (ctx : Ctx) (req : VReq) (st : Store)
    (p : Payload) (nz : String)
    (hpay : req.payload = some p)
    (he : truthyS p.e = false)
    (hd1 : p.topicID.bind (fun t => alookup st.lastEventTypePerTopic t) ≠ some "dispensed")
    (hd2 : p.topicID.bind (fun t => alookup st.lastEventTypePerTopic t) ≠ some "paid")
    (hv : truthyS p.v = false ∨ p.v = some "1.0")
    (hu : truthyN p.u = false ∨ ¬ (ctx.nowMs > p.u.getD 0))
    (hdm : jsNullish p.dispenseCount p.dc = none ∨ jsNullish p.maxDispenses p.md = none ∨
           (jsNullish p.dispenseCount p.dc).getD 0 < (jsNullish p.maxDispenses p.md).getD 0)
    (hn : p.nonce = some nz) (hnz : nz ≠ "") (hfresh : nz ∉ st.usedNonces) :
    verifyHandler c verifyP fraudP ctx req st =
      ({ status := 200, success := true, valid := some true,
         signatureValid := some (verifySigStatus verifyP (normOpt req.doctorNationalId) p),
         fraudAlert := verifyFraudAlert fraudP p req.geo },
       { st with usedNonces := st.usedNonces ++ [nz],
                 hcsLog := st.hcsLog ++ [(p.topicID, "verified")] }) := by
  have hb1 : (p.topicID.bind (fun t => alookup st.lastEventTypePerTopic t) ==
      some "dispensed") = false := by
    exact beq_eq_false_iff_ne.mpr hd1
  have hb2 : (p.topicID.bind (fun t => alookup st.lastEventTypePerTopic t) ==
      some "paid") = false := by
    exact beq_eq_false_iff_ne.mpr hd2
  unfold verifyHandler
  rw [hpay]
  dsimp only
  rw [he]
  simp only [Bool.false_and, if_false, Bool.false_eq_true, ite_false]
  rw [hb1, hb2]
  simp only [Bool.or_self, Bool.false_or, Bool.false_and, Bool.and_self, if_false,
    Bool.false_eq_true, ite_false]
  rw [if_neg (by rcases hv with hv | hv <;> simp [hv])]
  rw [if_neg (by rcases hu with hu | hu <;> simp [hu])]
  rw [if_neg (by rcases hdm with hdm | hdm | hdm <;> simp [hdm] <;> omega)]
  rw [hn]
  dsimp only
  rw [if_pos (by simpa [bne_iff_ne] using hnz), if_neg hfresh]
  unfold verifyTail
  simp only [verifiedEventBlock_id]

/-- Same gates, but the nonce was already consumed: hard 409 with
`Duplicate prescription nonce`, store untouched. -/
theorem verify_dup_run (c : CryptoM) (verifyP : SignedQR → String → String → Bool)
    (fraudP : String → String → FraudResult) (ctx : Ctx) (req : VReq) (st : Store)
    (p : Payload) (nz : String)
    (hpay : req.payload = some p)
    (he : truthyS p.e = false)
    (hd1 : p.topicID.bind (fun t => alookup st.lastEventTypePerTopic t) ≠ some "dispensed")
    (hd2 : p.topicID.bind (fun t => alookup st.lastEventTypePerTopic t) ≠ some "paid")
    (hv : truthyS p.v = false ∨ p.v = some "1.0")
    (hu : truthyN p.u = false ∨ ¬ (ctx.nowMs > p.u.getD 0))
    (hdm : jsNullish p.dispenseCount p.dc = none ∨ jsNullish p.maxDispenses p.md = none ∨
           (jsNullish p.dispenseCount p.dc).getD 0 < (jsNullish p.maxDispenses p.md).getD 0)
    (hn : p.nonce = some nz) (hnz : nz ≠ "") (hdup : nz ∈ st.usedNonces) :
    verifyHandler c verifyP fraudP ctx req st =
      ({ status := 409, success := false, valid := some false,
         message := some "Duplicate prescription nonce" }, st) := by
  have hb1 : (p.topicID.bind (fun t => alookup st.lastEventTypePerTopic t) ==
      some "dispensed") = false := by
    exact beq_eq_false_iff_ne.mpr hd1
  have hb2 : (p.topicID.bind (fun t => alookup st.lastEventTypePerTopic t) ==
      some "paid") = false := by
    exact beq_eq_false_iff_ne.mpr hd2
  unfold verifyHandler
  rw [hpay]
  dsimp only
  rw [he]
  simp only [Bool.false_and, if_false, Bool.false_eq_true, ite_false]
  rw [hb1, hb2]
  simp only [Bool.or_self, Bool.false_or, Bool.false_and, Bool.and_self, if_false,
    Bool.false_eq_true, ite_false]
  rw [if_neg (by rcases hv with hv | hv <;> simp [hv])]
  rw [if_neg (by rcases hu with hu | hu <;> simp [hu])]
  rw [if_neg (by rcases hdm with hdm | hdm | hdm <;> simp [hdm] <;> omega)]
  rw [hn]
  dsimp only
  rw [if_pos (by simpa [bne_iff_ne] using hnz), if_pos hdup]

/-- C6: across verify operations the consumed-nonce set is process-wide: the
first occurrence of a nonce is accepted and adds it to the set, and a second
event presenting the same nonce — on the same or a different channel — is
rejected 409 `Duplicate prescription nonce`. -/
theorem C6_nonce_replay_rejected (c : CryptoM) (verifyP : SignedQR → String → String → Bool)
    (fraudP : String → String → FraudResult) (ctx1 ctx2 : Ctx) (req1 req2 : VReq)
    (st : Store) (p1 p2 : Payload) (nz : String)
    (hpay1 : req1.payload = some p1) (hpay2 : req2.payload = some p2)
    (he1 : truthyS p1.e = false) (he2 : truthyS p2.e = false)
    (hd11 : p1.topicID.bind (fun t => alookup st.lastEventTypePerTopic t) ≠ some "dispensed")
    (hd12 : p1.topicID.bind (fun t => alookup st.lastEventTypePerTopic t) ≠ some "paid")
    (hd21 : p2.topicID.bind (fun t => alookup st.lastEventTypePerTopic t) ≠ some "dispensed")
    (hd22 : p2.topicID.bind (fun t => alookup st.lastEventTypePerTopic t) ≠ some "paid")
    (hv1 : truthyS p1.v = false ∨ p1.v = some "1.0")
    (hv2 : truthyS p2.v = false ∨ p2.v = some "1.0")
    (hu1 : truthyN p1.u = false ∨ ¬ (ctx1.nowMs > p1.u.getD 0))
    (hu2 : truthyN p2.u = false ∨ ¬ (ctx2.nowMs > p2.u.getD 0))
    (hdm1 : jsNullish p1.dispenseCount p1.dc = none ∨ jsNullish p1.maxDispenses p1.md = none ∨
            (jsNullish p1.dispenseCount p1.dc).getD 0 < (jsNullish p1.maxDispenses p1.md).getD 0)
    (hdm2 : jsNullish p2.dispenseCount p2.dc = none ∨ jsNullish p2.maxDispenses p2.md = none ∨
            (jsNullish p2.dispenseCount p2.dc).getD 0 < (jsNullish p2.maxDispenses p2.md).getD 0)
    (hn1 : p1.nonce = some nz) (hn2 : p2.nonce = some nz) (hnz : nz ≠ "")
    (hfresh : nz ∉ st.usedNonces) :
    (verifyHandler c verifyP fraudP ctx1 req1 st).1.status = 200 ∧
    (verifyHandler c verifyP fraudP ctx1 req1 st).1.success = true ∧
    nz ∈ (verifyHandler c verifyP fraudP ctx1 req1 st).2.usedNonces ∧
    verifyHandler c verifyP fraudP ctx2 req2 (verifyHandler c verifyP fraudP ctx1 req1 st).2 =
      ({ status := 409, success := false, valid := some false,
         message := some "Duplicate prescription nonce" },
       (verifyHandler c verifyP fraudP ctx1 req1 st).2) := by
  have h1 := verify_success_run c verifyP fraudP ctx1 req1 st p1 nz hpay1 he1 hd11 hd12
    hv1 hu1 hdm1 hn1 hnz hfresh
  rw [h1]
  refine ⟨rfl, rfl, by simp, ?_⟩
  exact verify_dup_run c verifyP fraudP ctx2 req2 _ p2 nz hpay2 he2 hd21 hd22 hv2 hu2 hdm2
    hn2 hnz (by simp)

/-- C6 witness: the same nonce on two different channels; the second verify
is rejected. -/
theorem C6_nonce_replay_rejected_witness :
    (verifyHandler cryptoR (fun _ _ _ => true) (fun _ _ => { suspicious := false }) {}
      { payload := some { topicID := some "T1", nonce := some "NZ99" } } {}).1.status = 200 ∧
    (verifyHandler cryptoR (fun _ _ _ => true) (fun _ _ => { suspicious := false }) {}
      { payload := some { topicID := some "T1", nonce := some "NZ99" } } {}).1.success = true ∧
    "NZ99" ∈ (verifyHandler cryptoR (fun _ _ _ => true) (fun _ _ => { suspicious := false }) {}
      { payload := some { topicID := some "T1", nonce := some "NZ99" } } {}).2.usedNonces ∧
    verifyHandler cryptoR (fun _ _ _ => true) (fun _ _ => { suspicious := false }) {}
      { payload := some { topicID := some "T2", nonce := some "NZ99" } }
      (verifyHandler cryptoR (fun _ _ _ => true) (fun _ _ => { suspicious := false }) {}
        { payload := some { topicID := some "T1", nonce := some "NZ99" } } {}).2 =
      ({ status := 409, success := false, valid := some false,
         message := some "Duplicate prescription nonce" },
       (verifyHandler cryptoR (fun _ _ _ => true) (fun _ _ => { suspicious := false }) {}
        { payload := some { topicID := some "T1", nonce := some "NZ99" } } {}).2) := by
  exact C6_nonce_replay_rejected cryptoR (fun _ _ _ => true) (fun _ _ => { suspicious := false })
    {} {} { payload := some { topicID := some "T1", nonce := some "NZ99" } }
    { payload := some { topicID := some "T2", nonce := some "NZ99" } } {}
    { topicID := some "T1", nonce := some "NZ99" }
    { topicID := some "T2", nonce := some "NZ99" } "NZ99"
    rfl rfl rfl rfl (by decide) (by decide) (by decide) (by decide)
    (Or.inl rfl) (Or.inl rfl) (Or.inl rfl) (Or.inl rfl)
    (Or.inl rfl) (Or.inl rfl) rfl rfl (by decide) (by decide)

theorem verifyTail_fst (c : CryptoM) (fraudP : String → String → FraudResult) (ctx : Ctx)
    (st : Store) (p : Payload) (pharmacistRaw geo : Option String) (sigStatus : Option Bool) :
    (verifyTail c fraudP ctx st p pharmacistRaw geo sigStatus).1 =
      { status := 200, success := true, valid := some true,
        signatureValid := some sigStatus,
        fraudAlert := verifyFraudAlert fraudP p geo } := rfl

/-- Any verify request that passes every rejection gate (including the nonce
guard) returns the success response carrying the computed signature status. -/
theorem verify_pass_fst (c : CryptoM) (verifyP : SignedQR → String → String → Bool)
    (fraudP : String → String → FraudResult) (ctx : Ctx) (req : VReq) (st : Store)
    (p : Payload)
    (hpay : req.payload = some p)
    (he : truthyS p.e = false)
    (hd1 : p.topicID.bind (fun t => alookup st.lastEventTypePerTopic t) ≠ some "dispensed")
    (hd2 : p.topicID.bind (fun t => alookup st.lastEventTypePerTopic t) ≠ some "paid")
    (hv : truthyS p.v = false ∨ p.v = some "1.0")
    (hu : truthyN p.u = false ∨ ¬ (ctx.nowMs > p.u.getD 0))
    (hdm : jsNullish p.dispenseCount p.dc = none ∨ jsNullish p.maxDispenses p.md = none ∨
           (jsNullish p.dispenseCount p.dc).getD 0 < (jsNullish p.maxDispenses p.md).getD 0)
    (hnonce : p.nonce = none ∨ p.nonce = some "" ∨
      (∃ nz, p.nonce = some nz ∧ nz ∉ st.usedNonces)) :
    (verifyHandler c verifyP fraudP ctx req st).1 =
      { status := 200, success := true, valid := some true,
        signatureValid := some (verifySigStatus verifyP (normOpt req.doctorNationalId) p),
        fraudAlert := verifyFraudAlert fraudP p req.geo } := by
  have hb1 : (p.topicID.bind (fun t => alookup st.lastEventTypePerTopic t) ==
      some "dispensed") = false := by
    exact beq_eq_false_iff_ne.mpr hd1
  have hb2 : (p.topicID.bind (fun t => alookup st.lastEventTypePerTopic t) ==
      some "paid") = false := by
    exact beq_eq_false_iff_ne.mpr hd2
  unfold verifyHandler
  rw [hpay]
  dsimp only
  rw [he]
  simp only [Bool.false_and, if_false, Bool.false_eq_true, ite_false]
  rw [hb1, hb2]
  simp only [Bool.or_self, Bool.false_or, Bool.false_and, Bool.and_self, if_false,
    Bool.false_eq_true, ite_false]
  rw [if_neg (by rcases hv with hv | hv <;> simp [hv])]
  rw [if_neg (by rcases hu with hu | hu <;> simp [hu])]
  rw [if_neg (by rcases hdm with hdm | hdm | hdm <;> simp [hdm] <;> omega)]
  rcases hnonce with hn | hn | ⟨nz, hn, hfree⟩
  · rw [hn]
    exact verifyTail_fst c fraudP ctx st p req.pharmacistNationalId req.geo _
  · rw [hn]
    exact verifyTail_fst c fraudP ctx st p req.pharmacistNationalId req.geo _
  · rw [hn]
    dsimp only
    by_cases hnz : nz = ""
    · rw [if_neg (by simp [hnz])]
      exact verifyTail_fst c fraudP ctx st p req.pharmacistNationalId req.geo _
    · rw [if_pos (by simpa [bne_iff_ne] using hnz), if_neg hfree]
      exact verifyTail_fst c fraudP ctx _ p req.pharmacistNationalId req.geo _

/-- The reported signature status is `some false` whenever a doctor id is
present and the signature is missing, empty, or fails verification. -/
theorem verifySigStatus_false (verifyP : SignedQR → String → String → Bool)
    (p : Payload) (did : String)
    (hsig : jsOrStr p.signature p.s = none ∨ jsOrStr p.signature p.s = some "" ∨
      (∃ sv, jsOrStr p.signature p.s = some sv ∧
        verifyP (reconstructSignedQR p) sv did = false)) :
    verifySigStatus verifyP (some did) p = some false := by
  unfold verifySigStatus
  rcases hsig with h | h | ⟨sv, hsv, hfail⟩
  · rw [h]
  · rw [h]
    simp
  · rw [hsv]
    by_cases hz : sv = ""
    · simp [hz]
    · simp only [bne_iff_ne, ne_eq, hz, not_false_eq_true, if_true, hfail]

/-- C8: with a doctor national id supplied, a missing/empty/failing doctor
signature does not cause /api/verify to reject: the request (passing the
other gates) still returns success — `success: true`, `valid: true` — with
`signatureValid: false` reported in the response; no configuration input
selects a fail-closed behavior (the handler takes none). -/
theorem C8_invalid_signature_continues (c : CryptoM)
    (verifyP : SignedQR → String → String → Bool)
    (fraudP : String → String → FraudResult) (ctx : Ctx) (req : VReq) (st : Store)
    (p : Payload) (did : String)
    (hpay : req.payload = some p)
    (he : truthyS p.e = false)
    (hd1 : p.topicID.bind (fun t => alookup st.lastEventTypePerTopic t) ≠ some "dispensed")
    (hd2 : p.topicID.bind (fun t => alookup st.lastEventTypePerTopic t) ≠ some "paid")
    (hv : truthyS p.v = false ∨ p.v = some "1.0")
    (hu : truthyN p.u = false ∨ ¬ (ctx.nowMs > p.u.getD 0))
    (hdm : jsNullish p.dispenseCount p.dc = none ∨ jsNullish p.maxDispenses p.md = none ∨
           (jsNullish p.dispenseCount p.dc).getD 0 < (jsNullish p.maxDispenses p.md).getD 0)
    (hnonce : p.nonce = none ∨ p.nonce = some "" ∨
      (∃ nz, p.nonce = some nz ∧ nz ∉ st.usedNonces))
    (hdoc : normOpt req.doctorNationalId = some did)
    (hsig : jsOrStr p.signature p.s = none ∨ jsOrStr p.signature p.s = some "" ∨
      (∃ sv, jsOrStr p.signature p.s = some sv ∧
        verifyP (reconstructSignedQR p) sv did = false)) :
    (verifyHandler c verifyP fraudP ctx req st).1.status = 200 ∧
    (verifyHandler c verifyP fraudP ctx req st).1.success = true ∧
    (verifyHandler c verifyP fraudP ctx req st).1.valid = some true ∧
    (verifyHandler c verifyP fraudP ctx req st).1.signatureValid = some (some false) := by
  have h := verify_pass_fst c verifyP fraudP ctx req st p hpay he hd1 hd2 hv hu hdm hnonce
  rw [h, hdoc, verifySigStatus_false verifyP p did hsig]
  exact ⟨rfl, rfl, rfl, rfl⟩

/-- C8 witness: doctor id supplied, signature absent from the payload — the
verify succeeds and reports `signatureValid: false`. -/
theorem C8_invalid_signature_continues_witness :
    (verifyHandler cryptoR (fun _ _ _ => false) (fun _ _ => { suspicious := false }) {}
      { payload := some { topicID := some "T1" }, doctorNationalId := some "DOC7" } {}).1.status = 200 ∧
    (verifyHandler cryptoR (fun _ _ _ => false) (fun _ _ => { suspicious := false }) {}
      { payload := some { topicID := some "T1" }, doctorNationalId := some "DOC7" } {}).1.success = true ∧
    (verifyHandler cryptoR (fun _ _ _ => false) (fun _ _ => { suspicious := false }) {}
      { payload := some { topicID := some "T1" }, doctorNationalId := some "DOC7" } {}).1.valid = some true ∧
    (verifyHandler cryptoR (fun _ _ _ => false) (fun _ _ => { suspicious := false }) {}
      { payload := some { topicID := some "T1" }, doctorNationalId := some "DOC7" } {}).1.signatureValid = some (some false) := by
  exact C8_invalid_signature_continues cryptoR (fun _ _ _ => false)
    (fun _ _ => { suspicious := false }) {}
    { payload := some { topicID := some "T1" }, doctorNationalId := some "DOC7" } {}
    { topicID := some "T1" } "DOC7"
    rfl rfl (by decide) (by decide) (Or.inl rfl) (Or.inl rfl) (Or.inl rfl)
    (Or.inl rfl) (by decide) (Or.inl rfl)

theorem dispensedEvent_prevEventHash (c : CryptoM) (ctx : Ctx) (req : DReq)
    (cp : Option String) (n m : Nat) :
    objGet (dispensedEvent c ctx req cp n m) "prevEventHash" = cp.map JVal.str := by
  unfold dispensedEvent signedEventOf dispensedBase
  cases req.items <;> cases req.totals <;> cases jsOrStr req.paymentMethod none <;>
    cases cp <;> rfl

theorem paidEvent_prevEventHash (c : CryptoM) (ctx : Ctx)
    (topicID pharmacistNationalId : String) (amountMAD : Option Int)
    (method : Option String) (st : Store) :
    objGet (paidEvent c ctx topicID pharmacistNationalId amountMAD method st) "prevEventHash" =
      (jsOrStr (alookup st.lastEventHashPerTopic topicID) none).map JVal.str := by
  unfold paidEvent signedEventOf paidBase
  generalize (if truthyI amountMAD then amountMAD.map JVal.num else none) = aOpt
  generalize jsOrStr method none = mOpt
  generalize jsOrStr (alookup st.lastEventHashPerTopic topicID) none = pOpt
  cases aOpt <;> cases mOpt <;> cases pOpt <;> rfl

/-- C3 counterexample: the store head for channel T is `sha256:head`, but the
dispense request supplies `prevEventHash: "sha256:attacker"`; the request
succeeds and the submitted dispensed event carries the client-supplied value,
not the channel's lastEventHash read before submission. -/
theorem C3_counterexample_client_prevEventHash :
    ∃ ev,
      (dispenseHandler cryptoR {} {}
        { topicID := "T", pharmacistNationalId := "PH1",
          prevEventHash := some "sha256:attacker" }
        { lastEventHashPerTopic := [("T", "sha256:head")] }).1.event = some ev ∧
      (dispenseHandler cryptoR {} {}
        { topicID := "T", pharmacistNationalId := "PH1",
          prevEventHash := some "sha256:attacker" }
        { lastEventHashPerTopic := [("T", "sha256:head")] }).1.resp.status = 200 ∧
      objGet ev "prevEventHash" = some (.str "sha256:attacker") ∧
      alookup (Store.lastEventHashPerTopic
        { lastEventHashPerTopic := [("T", "sha256:head")] }) "T" = some "sha256:head" ∧
      "sha256:attacker" ≠ "sha256:head" := by
  obtain ⟨h1, _, _, _⟩ := dispense_success_spec cryptoR {} {}
    { topicID := "T", pharmacistNationalId := "PH1",
      prevEventHash := some "sha256:attacker" }
    { lastEventHashPerTopic := [("T", "sha256:head")] } 0 1 rfl rfl rfl rfl (by omega)
  refine ⟨_, by rw [h1], by rw [h1], ?_, rfl, by decide⟩
  rw [dispensedEvent_prevEventHash]
  rfl

/-- C3 as amended: a paid event's `prevEventHash` is always the store head
read just before submission (absent when there is none); a dispensed event
uses the truthy client-supplied `prevEventHash` from the request body when
present, falling back to the store head otherwise; and verified events are
never submitted at all (their block is dead code, leaving the store
unchanged). -/
theorem C3_amended_prevEventHash :
    (∀ (c : CryptoM) (ctx : Ctx) (topicID pharmacistNationalId : String)
       (amountMAD : Option Int) (method : Option String) (st : Store),
       objGet (paidEvent c ctx topicID pharmacistNationalId amountMAD method st)
           "prevEventHash" =
         (jsOrStr (alookup st.lastEventHashPerTopic topicID) none).map JVal.str) ∧
    (∀ (c : CryptoM) (orc : DOracle) (ctx : Ctx) (req : DReq) (st : Store) (dc N : Nat),
       alookup st.locks req.topicID = none → orc.signThrows = false →
       jsOrNat ((alookup st.inMemory req.topicID).bind (fun e => e.payload.dispenseCount)) 0 = dc →
       jsOrNat ((alookup st.inMemory req.topicID).bind (fun e => e.payload.maxDispenses)) 1 = N →
       dc < N →
       ∃ ev, (dispenseHandler c orc ctx req st).1.event = some ev ∧
         objGet ev "prevEventHash" =
           (jsOrStr req.prevEventHash
             (jsOrStr (alookup st.lastEventHashPerTopic req.topicID) none)).map JVal.str) ∧
    (∀ (c : CryptoM) (ctx : Ctx) (st : Store) (payload : Payload)
       (pharmacistRaw : Option String) (fraudAlert : Option FraudAlert),
       verifiedEventBlock c ctx st payload pharmacistRaw fraudAlert = st) := by
  refine ⟨paidEvent_prevEventHash, ?_, verifiedEventBlock_id⟩
  intro c orc ctx req st dc N hlock hsign hdc hN hlt
  obtain ⟨h1, _, _, _⟩ := dispense_success_spec c orc ctx req st dc N hlock hsign hdc hN hlt
  exact ⟨_, by rw [h1], dispensedEvent_prevEventHash c ctx req _ (dc + 1) N⟩

/-- C3 amended-claim witness: concrete paid and dispensed runs. -/
theorem C3_amended_prevEventHash_witness :
    objGet (paidEvent cryptoR {} "T" "PH1" none none
        { lastEventHashPerTopic := [("T", "sha256:head")] }) "prevEventHash" =
      (jsOrStr (alookup (Store.lastEventHashPerTopic
        { lastEventHashPerTopic := [("T", "sha256:head")] }) "T") none).map JVal.str ∧
    ∃ ev, (dispenseHandler cryptoR {} {} { topicID := "T", pharmacistNationalId := "PH1" }
        { lastEventHashPerTopic := [("T", "sha256:head")] }).1.event = some ev ∧
      objGet ev "prevEventHash" =
        (jsOrStr (DReq.prevEventHash { topicID := "T", pharmacistNationalId := "PH1" })
          (jsOrStr (alookup (Store.lastEventHashPerTopic
            { lastEventHashPerTopic := [("T", "sha256:head")] }) "T") none)).map JVal.str :=
  ⟨C3_amended_prevEventHash.1 cryptoR {} "T" "PH1" none none
    { lastEventHashPerTopic := [("T", "sha256:head")] },
   C3_amended_prevEventHash.2.1 cryptoR {} {} { topicID := "T", pharmacistNationalId := "PH1" }
    { lastEventHashPerTopic := [("T", "sha256:head")] } 0 1 rfl rfl rfl rfl (by omega)⟩

set_option maxHeartbeats 2000000 in
/-- Dispensed events: contentHash is the digest of the serialized event with
exactly the signature and contentHash fields removed, and the signature is
computed over the event minus only its signature field — i.e. with the
contentHash already attached. -/
theorem dispensedEvent_contentHash (c : CryptoM) (ctx : Ctx) (req : DReq)
    (cp : Option String) (n m : Nat) :
    objGet (dispensedEvent c ctx req cp n m) "contentHash" =
      some (.str ("sha256:" ++ c.sha (serializeJ
        (objRemove (dispensedEvent c ctx req cp n m) ["signature", "contentHash"])))) ∧
    objGet (dispensedEvent c ctx req cp n m) "signature" =
      some (.str ("hex:" ++ c.sign
        (objRemove (dispensedEvent c ctx req cp n m) ["signature"])
        req.pharmacistNationalId)) := by
  unfold dispensedEvent signedEventOf dispensedBase
  cases req.items <;> cases req.totals <;> cases jsOrStr req.paymentMethod none <;>
    cases cp <;> exact ⟨rfl, rfl⟩

set_option maxHeartbeats 2000000 in
theorem paidEvent_contentHash (c : CryptoM) (ctx : Ctx)
    (topicID pharmacistNationalId : String) (amountMAD : Option Int)
    (method : Option String) (st : Store) :
    objGet (paidEvent c ctx topicID pharmacistNationalId amountMAD method st) "contentHash" =
      some (.str ("sha256:" ++ c.sha (serializeJ
        (objRemove (paidEvent c ctx topicID pharmacistNationalId amountMAD method st)
          ["signature", "contentHash"])))) ∧
    objGet (paidEvent c ctx topicID pharmacistNationalId amountMAD method st) "signature" =
      some (.str ("hex:" ++ c.sign
        (objRemove (paidEvent c ctx topicID pharmacistNationalId amountMAD method st)
          ["signature"]) pharmacistNationalId)) := by
  unfold paidEvent signedEventOf paidBase
  generalize (if truthyI amountMAD then amountMAD.map JVal.num else none) = aOpt
  generalize jsOrStr method none = mOpt
  generalize jsOrStr (alookup st.lastEventHashPerTopic topicID) none = pOpt
  cases aOpt <;> cases mOpt <;> cases pOpt <;> exact ⟨rfl, rfl⟩

/-- Unsigned issued events (no doctor national id): the claim's equation
holds as stated — there is no signature or keyId, and contentHash is the
digest of the event minus its contentHash field. -/
theorem issuedEvent_unsigned_contentHash (c : CryptoM) (ctx : Ctx) (a : IssueArgs) :
    objGet (issuedEvent c ctx a none) "contentHash" =
      some (.str ("sha256:" ++ c.sha (serializeJ
        (objRemove (issuedEvent c ctx a none) ["signature", "contentHash"])))) := by
  unfold issuedEvent issuedFullPayload
  cases a.geo <;> rfl

set_option maxHeartbeats 1000000 in
/-- Signed issued events: `keyId` is attached only after hashing, so the
digest excludes signature, contentHash AND keyId; the signature is still
computed after the hash, over the event minus only its signature field. -/
theorem issuedEvent_signed_contentHash (c : CryptoM) (ctx : Ctx) (a : IssueArgs)
    (nid : String) :
    objGet (issuedEvent c ctx a (some nid)) "contentHash" =
      some (.str ("sha256:" ++ c.sha (serializeJ
        (objRemove (issuedEvent c ctx a (some nid)) ["signature", "contentHash", "keyId"])))) ∧
    objGet (issuedEvent c ctx a (some nid)) "signature" =
      some (.str ("hex:" ++ c.sign
        (objRemove (issuedEvent c ctx a (some nid)) ["signature"]) nid)) := by
  unfold issuedEvent issuedFullPayload
  cases a.geo <;> exact ⟨rfl, rfl⟩

/-- C7 as amended: every paid and dispensed event, and every issued event
built without a doctor national id, carries `contentHash = "sha256:" +
hex(sha256(serialized event minus signature/contentHash))`, with the
signature computed afterwards over the event including its contentHash. For
an issued event built WITH a doctor national id, `keyId` is attached only
after hashing, so the digest additionally excludes the keyId field.
(Verified events are never constructed — their block is dead code, see C5.) -/
theorem C7_amended_contentHash :
    (∀ (c : CryptoM) (ctx : Ctx) (req : DReq) (cp : Option String) (n m : Nat),
      objGet (dispensedEvent c ctx req cp n m) "contentHash" =
        some (.str ("sha256:" ++ c.sha (serializeJ
          (objRemove (dispensedEvent c ctx req cp n m) ["signature", "contentHash"])))) ∧
      objGet (dispensedEvent c ctx req cp n m) "signature" =
        some (.str ("hex:" ++ c.sign
          (objRemove (dispensedEvent c ctx req cp n m) ["signature"])
          req.pharmacistNationalId))) ∧
    (∀ (c : CryptoM) (ctx : Ctx) (topicID pharmacistNationalId : String)
       (amountMAD : Option Int) (method : Option String) (st : Store),
      objGet (paidEvent c ctx topicID pharmacistNationalId amountMAD method st) "contentHash" =
        some (.str ("sha256:" ++ c.sha (serializeJ
          (objRemove (paidEvent c ctx topicID pharmacistNationalId amountMAD method st)
            ["signature", "contentHash"])))) ∧
      objGet (paidEvent c ctx topicID pharmacistNationalId amountMAD method st) "signature" =
        some (.str ("hex:" ++ c.sign
          (objRemove (paidEvent c ctx topicID pharmacistNationalId amountMAD method st)
            ["signature"]) pharmacistNationalId))) ∧
    (∀ (c : CryptoM) (ctx : Ctx) (a : IssueArgs),
      objGet (issuedEvent c ctx a none) "contentHash" =
        some (.str ("sha256:" ++ c.sha (serializeJ
          (objRemove (issuedEvent c ctx a none) ["signature", "contentHash"]))))) ∧
    (∀ (c : CryptoM) (ctx : Ctx) (a : IssueArgs) (nid : String),
      objGet (issuedEvent c ctx a (some nid)) "contentHash" =
        some (.str ("sha256:" ++ c.sha (serializeJ
          (objRemove (issuedEvent c ctx a (some nid))
            ["signature", "contentHash", "keyId"])))) ∧
      objGet (issuedEvent c ctx a (some nid)) "signature" =
        some (.str ("hex:" ++ c.sign
          (objRemove (issuedEvent c ctx a (some nid)) ["signature"]) nid))) :=
  ⟨dispensedEvent_contentHash, paidEvent_contentHash,
   issuedEvent_unsigned_contentHash, issuedEvent_signed_contentHash⟩

set_option maxRecDepth 200000 in
set_option maxHeartbeats 4000000 in
/-- C7 counterexample: a concrete issued event signed by doctor DOC1. Its
stored contentHash (the digest taken before keyId was attached) differs from
the SHA-256 of the serialized event minus only its signature and contentHash
fields, because that serialization includes the keyId field. -/
theorem C7_counterexample_issued_signed :
    ∃ s, objGet (issuedEvent cryptoR {} { topicID := "T" } (some "DOC1")) "contentHash" =
        some (.str s) ∧
      s ≠ "sha256:" ++ sha256hexS (serializeJ
        (objRemove (issuedEvent cryptoR {} { topicID := "T" } (some "DOC1"))
          ["signature", "contentHash"])) := by
  refine ⟨_, rfl, ?_⟩
  decide

theorem goodKeysB_spec (fs : List (String × JVal)) (h : goodKeysB fs = true) :
    ∀ p ∈ fs, decodeKey (encodeKey p.1) = p.1 := by
  induction fs with
  | nil => intro p hp; cases hp
  | cons q rest ih =>
      obtain ⟨k, v⟩ := q
      simp only [goodKeysB, Bool.and_eq_true, beq_iff_eq] at h
      intro p hp
      rcases List.mem_cons.mp hp with rfl | hp
      · exact h.1
      · exact ih h.2 p hp

theorem goodValsB_spec (vd : List (String × String)) (fs : List (String × JVal))
    (h : goodValsB vd fs = true) :
    ∀ p ∈ fs, decodeVal vd (encodeVal vd p.2) = p.2 := by
  induction fs with
  | nil => intro p hp; cases hp
  | cons q rest ih =>
      obtain ⟨k, v⟩ := q
      intro p hp
      cases v with
      | str s =>
          simp only [goodValsB, Bool.and_eq_true, beq_iff_eq] at h
          rcases List.mem_cons.mp hp with rfl | hp
          · simp only [encodeVal, decodeVal, h.1]
          · exact ih h.2 p hp
      | null =>
          simp only [goodValsB] at h
          rcases List.mem_cons.mp hp with rfl | hp
          · rfl
          · exact ih h p hp
      | bool b =>
          simp only [goodValsB] at h
          rcases List.mem_cons.mp hp with rfl | hp
          · rfl
          · exact ih h p hp
      | num n =>
          simp only [goodValsB] at h
          rcases List.mem_cons.mp hp with rfl | hp
          · rfl
          · exact ih h p hp
      | arr xs =>
          simp only [goodValsB] at h
          rcases List.mem_cons.mp hp with rfl | hp
          · rfl
          · exact ih h p hp
      | obj gs =>
          simp only [goodValsB] at h
          rcases List.mem_cons.mp hp with rfl | hp
          · rfl
          · exact ih h p hp

/-- The compressor round trip on any JSON value whose keys and values pass
the dictionary checkers. -/
theorem decompress_compress_jval (vd : List (String × String)) (v : JVal)
    (hk : goodKeysB (objFields v) = true)
    (hv : goodValsB vd (objFields v) = true) :
    decompressPayloadJ vd (compressPayloadJ vd v) = v := by
  cases v with
  | obj fs =>
      have hk' := goodKeysB_spec fs hk
      have hv' := goodValsB_spec vd fs hv
      simp only [compressPayloadJ, decompressPayloadJ, List.map_map]
      congr 1
      have : ∀ p ∈ fs,
          ((fun p => (decodeKey p.1, decodeVal vd p.2)) ∘
            (fun p => (encodeKey p.1, encodeVal vd p.2))) p = id p := by
        intro p hp
        simp only [Function.comp_apply, id_eq]
        rw [hk' p hp, hv' p hp]
      rw [List.map_congr_left this, List.map_id]
  | null => rfl
  | bool b => rfl
  | num n => rfl
  | str s => rfl
  | arr xs => rfl

theorem jvTruthy_none : jvTruthy none = false := rfl

theorem jvTruthy_encodeVal (vd : List (String × String))
    (hvd : ∀ q ∈ vd, q.2 ≠ "") (s : String) (hs : s ≠ "") :
    jvTruthy (some (encodeVal vd (.str s))) = true := by
  simp only [encodeVal, encodeValS, jvTruthy]
  cases hfind : alookup vd s with
  | none => simpa [bne_iff_ne]
  | some t =>
      have hmem : ∃ q ∈ vd, q.2 = t := by
        unfold alookup at hfind
        cases hf : vd.find? (fun p => p.1 == s) with
        | none => rw [hf] at hfind; cases hfind
        | some q =>
            rw [hf] at hfind
            exact ⟨q, List.mem_of_find?_eq_some hf, by simpa using hfind⟩
      obtain ⟨q, hqmem, hqt⟩ := hmem
      have : t ≠ "" := hqt ▸ hvd q hqmem
      simpa [bne_iff_ne]

theorem goodKeysB_issued (c : CryptoM) (ctx : Ctx) (a : IssueArgs) (nid : Option String) :
    goodKeysB (objFields (issuedEvent c ctx a nid)) = true := by
  unfold issuedEvent issuedFullPayload
  cases nid <;> cases a.geo <;> rfl

theorem goodKeysB_dispensed (c : CryptoM) (ctx : Ctx) (req : DReq)
    (cp : Option String) (n m : Nat) :
    goodKeysB (objFields (dispensedEvent c ctx req cp n m)) = true := by
  unfold dispensedEvent signedEventOf dispensedBase
  cases req.items <;> cases req.totals <;> cases jsOrStr req.paymentMethod none <;>
    cases cp <;> rfl

theorem goodKeysB_paid (c : CryptoM) (ctx : Ctx) (topicID pharmacistNationalId : String)
    (amountMAD : Option Int) (method : Option String) (st : Store) :
    goodKeysB (objFields (paidEvent c ctx topicID pharmacistNationalId amountMAD method st)) = true := by
  unfold paidEvent signedEventOf paidBase
  generalize (if truthyI amountMAD then amountMAD.map JVal.num else none) = aOpt
  generalize jsOrStr method none = mOpt
  generalize jsOrStr (alookup st.lastEventHashPerTopic topicID) none = pOpt
  cases aOpt <;> cases mOpt <;> cases pOpt <;> rfl

theorem goodKeysB_verified (c : CryptoM) (ctx : Ctx) (payload : Payload)
    (pharmacistRaw : Option String) (fraudAlert : Option FraudAlert)
    (okVal : Bool) (prevEventHash : String) :
    goodKeysB (objFields (verifiedEventShape c ctx payload pharmacistRaw fraudAlert
      okVal prevEventHash)) = true := by
  unfold verifiedEventShape signedEventOf verifiedMsgBase
  cases htr : truthyS pharmacistRaw <;> simp only [htr, if_true, if_false,
    Bool.false_eq_true, ite_false, ite_true] <;>
    cases payload.topicID <;> cases fraudAlert <;> rfl

theorem issued_detect (vd : List (String × String)) (c : CryptoM) (ctx : Ctx)
    (a : IssueArgs) (nid : Option String) :
    objGet (issuedEvent c ctx a nid) "e" = none ∧
    objGet (compressPayloadJ vd (issuedEvent c ctx a nid)) "eventType" = none ∧
    objGet (compressPayloadJ vd (issuedEvent c ctx a nid)) "e" =
      some (encodeVal vd (.str "issued")) := by
  unfold issuedEvent issuedFullPayload compressPayloadJ
  cases nid <;> cases a.geo <;> exact ⟨rfl, rfl, rfl⟩

set_option maxHeartbeats 2000000 in
theorem dispensed_detect (vd : List (String × String)) (c : CryptoM) (ctx : Ctx)
    (req : DReq) (cp : Option String) (n m : Nat) :
    objGet (dispensedEvent c ctx req cp n m) "e" = none ∧
    objGet (compressPayloadJ vd (dispensedEvent c ctx req cp n m)) "eventType" = none ∧
    objGet (compressPayloadJ vd (dispensedEvent c ctx req cp n m)) "e" =
      some (encodeVal vd (.str "dispensed")) := by
  unfold dispensedEvent signedEventOf dispensedBase compressPayloadJ
  cases req.items <;> cases req.totals <;> cases jsOrStr req.paymentMethod none <;>
    cases cp <;> exact ⟨rfl, rfl, rfl⟩

theorem paid_detect (vd : List (String × String)) (c : CryptoM) (ctx : Ctx)
    (topicID pharmacistNationalId : String) (amountMAD : Option Int)
    (method : Option String) (st : Store) :
    objGet (paidEvent c ctx topicID pharmacistNationalId amountMAD method st) "e" = none ∧
    objGet (compressPayloadJ vd (paidEvent c ctx topicID pharmacistNationalId amountMAD method st)) "eventType" = none ∧
    objGet (compressPayloadJ vd (paidEvent c ctx topicID pharmacistNationalId amountMAD method st)) "e" =
      some (encodeVal vd (.str "paid")) := by
  unfold paidEvent signedEventOf paidBase compressPayloadJ
  generalize (if truthyI amountMAD then amountMAD.map JVal.num else none) = aOpt
  generalize jsOrStr method none = mOpt
  generalize jsOrStr (alookup st.lastEventHashPerTopic topicID) none = pOpt
  cases aOpt <;> cases mOpt <;> cases pOpt <;> exact ⟨rfl, rfl, rfl⟩

theorem verified_detect (vd : List (String × String)) (c : CryptoM) (ctx : Ctx)
    (payload : Payload) (pharmacistRaw : Option String) (fraudAlert : Option FraudAlert)
    (okVal : Bool) (prevEventHash : String) :
    objGet (verifiedEventShape c ctx payload pharmacistRaw fraudAlert okVal prevEventHash) "e" = none ∧
    objGet (compressPayloadJ vd (verifiedEventShape c ctx payload pharmacistRaw fraudAlert okVal prevEventHash)) "eventType" = none ∧
    objGet (compressPayloadJ vd (verifiedEventShape c ctx payload pharmacistRaw fraudAlert okVal prevEventHash)) "e" =
      some (encodeVal vd (.str "verified")) := by
  unfold verifiedEventShape signedEventOf verifiedMsgBase compressPayloadJ
  cases htr : truthyS pharmacistRaw <;> simp only [htr, if_true, if_false,
    Bool.false_eq_true, ite_false, ite_true] <;>
    cases payload.topicID <;> cases fraudAlert <;> exact ⟨rfl, rfl, rfl⟩

/-- C4: for each event shape (issued / verified / paid / dispensed), when the
value dictionary round-trips the shape's string values (`goodValsB`; its
tokens are nonempty), `decompressPayload (compressPayload x) = x` — absent
optional fields stay absent and numeric fields stay numbers, since the field
list and its `.num` values are restored verbatim — and compressed form is
detected exactly by a truthy short key `e` with no truthy `eventType`:
false on the uncompressed shape, true on its compressed image. -/
theorem C4_compressor_roundtrip (vd : List (String × String))
    (hvd : ∀ q ∈ vd, q.2 ≠ "") :
    (∀ (c : CryptoM) (ctx : Ctx) (a : IssueArgs) (nid : Option String),
      goodValsB vd (objFields (issuedEvent c ctx a nid)) = true →
      decompressPayloadJ vd (compressPayloadJ vd (issuedEvent c ctx a nid)) =
        issuedEvent c ctx a nid ∧
      isCompressedJS (issuedEvent c ctx a nid) = false ∧
      isCompressedJS (compressPayloadJ vd (issuedEvent c ctx a nid)) = true) ∧
    (∀ (c : CryptoM) (ctx : Ctx) (payload : Payload) (pharmacistRaw : Option String)
       (fraudAlert : Option FraudAlert) (okVal : Bool) (prevEventHash : String),
      goodValsB vd (objFields (verifiedEventShape c ctx payload pharmacistRaw fraudAlert okVal prevEventHash)) = true →
      decompressPayloadJ vd (compressPayloadJ vd (verifiedEventShape c ctx payload pharmacistRaw fraudAlert okVal prevEventHash)) =
        verifiedEventShape c ctx payload pharmacistRaw fraudAlert okVal prevEventHash ∧
      isCompressedJS (verifiedEventShape c ctx payload pharmacistRaw fraudAlert okVal prevEventHash) = false ∧
      isCompressedJS (compressPayloadJ vd (verifiedEventShape c ctx payload pharmacistRaw fraudAlert okVal prevEventHash)) = true) ∧
    (∀ (c : CryptoM) (ctx : Ctx) (topicID pharmacistNationalId : String)
       (amountMAD : Option Int) (method : Option String) (st : Store),
      goodValsB vd (objFields (paidEvent c ctx topicID pharmacistNationalId amountMAD method st)) = true →
      decompressPayloadJ vd (compressPayloadJ vd (paidEvent c ctx topicID pharmacistNationalId amountMAD method st)) =
        paidEvent c ctx topicID pharmacistNationalId amountMAD method st ∧
      isCompressedJS (paidEvent c ctx topicID pharmacistNationalId amountMAD method st) = false ∧
      isCompressedJS (compressPayloadJ vd (paidEvent c ctx topicID pharmacistNationalId amountMAD method st)) = true) ∧
    (∀ (c : CryptoM) (ctx : Ctx) (req : DReq) (cp : Option String) (n m : Nat),
      goodValsB vd (objFields (dispensedEvent c ctx req cp n m)) = true →
      decompressPayloadJ vd (compressPayloadJ vd (dispensedEvent c ctx req cp n m)) =
        dispensedEvent c ctx req cp n m ∧
      isCompressedJS (dispensedEvent c ctx req cp n m) = false ∧
      isCompressedJS (compressPayloadJ vd (dispensedEvent c ctx req cp n m)) = true) := by
  refine ⟨?_, ?_, ?_, ?_⟩
  · intro c ctx a nid hv
    obtain ⟨d1, d2, d3⟩ := issued_detect vd c ctx a nid
    refine ⟨decompress_compress_jval vd _ (goodKeysB_issued c ctx a nid) hv, ?_, ?_⟩
    · simp [isCompressedJS, d1, jvTruthy]
    · simp [isCompressedJS, d2, d3, jvTruthy_none,
        jvTruthy_encodeVal vd hvd "issued" (by decide)]
  · intro c ctx payload pharmacistRaw fraudAlert okVal prevEventHash hv
    obtain ⟨d1, d2, d3⟩ := verified_detect vd c ctx payload pharmacistRaw fraudAlert okVal prevEventHash
    refine ⟨decompress_compress_jval vd _
      (goodKeysB_verified c ctx payload pharmacistRaw fraudAlert okVal prevEventHash) hv, ?_, ?_⟩
    · simp [isCompressedJS, d1, jvTruthy]
    · simp [isCompressedJS, d2, d3, jvTruthy_none,
        jvTruthy_encodeVal vd hvd "verified" (by decide)]
  · intro c ctx topicID pharmacistNationalId amountMAD method st hv
    obtain ⟨d1, d2, d3⟩ := paid_detect vd c ctx topicID pharmacistNationalId amountMAD method st
    refine ⟨decompress_compress_jval vd _
      (goodKeysB_paid c ctx topicID pharmacistNationalId amountMAD method st) hv, ?_, ?_⟩
    · simp [isCompressedJS, d1, jvTruthy]
    · simp [isCompressedJS, d2, d3, jvTruthy_none,
        jvTruthy_encodeVal vd hvd "paid" (by decide)]
  · intro c ctx req cp n m hv
    obtain ⟨d1, d2, d3⟩ := dispensed_detect vd c ctx req cp n m
    refine ⟨decompress_compress_jval vd _ (goodKeysB_dispensed c ctx req cp n m) hv, ?_, ?_⟩
    · simp [isCompressedJS, d1, jvTruthy]
    · simp [isCompressedJS, d2, d3, jvTruthy_none,
        jvTruthy_encodeVal vd hvd "dispensed" (by decide)]

set_option maxRecDepth 100000 in
/-- C4 witness: a concrete dispensed event and a nontrivial value dictionary
round-trip, with the compressed-form detection behaving as claimed. -/
theorem C4_compressor_roundtrip_witness :
    decompressPayloadJ [("D1", "x1")] (compressPayloadJ [("D1", "x1")]
        (dispensedEvent { sha := fun s => s, sign := fun _ a => a } {}
          { topicID := "T", pharmacistNationalId := "PH1" } none 1 1)) =
      dispensedEvent { sha := fun s => s, sign := fun _ a => a } {}
        { topicID := "T", pharmacistNationalId := "PH1" } none 1 1 ∧
    isCompressedJS (dispensedEvent { sha := fun s => s, sign := fun _ a => a } {}
        { topicID := "T", pharmacistNationalId := "PH1" } none 1 1) = false ∧
    isCompressedJS (compressPayloadJ [("D1", "x1")]
        (dispensedEvent { sha := fun s => s, sign := fun _ a => a } {}
          { topicID := "T", pharmacistNationalId := "PH1" } none 1 1)) = true :=
  (C4_compressor_roundtrip [("D1", "x1")] (by decide)).2.2.2
    { sha := fun s => s, sign := fun _ a => a } {}
    { topicID := "T", pharmacistNationalId := "PH1" } none 1 1 (by decide)
